import Mathlib

/-!
Verification of the Battleship game core against its specification.

The repository concatenates several near-identical variants of the game.
This development embeds the variants the claims refer to:

* `TestCode`  — the 10×10 bit-packed variant of `battle_ship_test_code.ino`
  (lines ≈1728–2667): grids are byte buffers at 2 bits per cell, attack
  resolution, the hunt/target opponent AI, win checks, reset and the main
  loop dispatch.
* `SerialMonitor` — the 12×12 variant of `battle_ship_serial_monitor.ino`:
  plain `int8_t` ownership grids (positive ship ids, `-1` hit), separate
  attack grids, the strict (adjacency-checking) placement validator and
  the full `resetGame`.
* `Part1` — `src/unnamed/part_001`: 12×12, simple validator, and the
  function-local `static shipId` inside `playerPlaceShips`.

Machine integers are modelled as `Nat` (or `Int` for `int8_t` grids) with
explicit `% 256` truncation exactly where a C `uint8_t` assignment
truncates.  Byte buffers are total functions `Nat → Nat`; a well-formed
buffer has all values `< 256`.
-/

namespace TestCode

/-- Shared result type of an attack attempt (the three observable outcomes
of `playerAttack` / the AI's attack resolution). -/
inductive AttackResult where
  | rejected
  | hit
  | miss
deriving DecidableEq, Repr

/-- Game phases, from `enum GameState { WAITING_TO_START, PLACING_SHIPS,
PLAYER_TURN, ARDUINO_TURN, GAME_OVER }`. -/
inductive GamePhase where
  | waiting
  | placing
  | playerTurn
  | arduinoTurn
  | gameOver
deriving DecidableEq, Repr

/-- AI modes, from `enum AttackMode { HUNT_MODE, TARGET_MODE }`. -/
inductive AttackMode where
  | hunt
  | target
deriving DecidableEq, Repr

/-- `#define GRID_SIZE 10` -/
def GRID_SIZE : Nat := 10

/-- `#define NUM_SHIPS 5` -/
def NUM_SHIPS : Nat := 5

/-- `#define CELL_EMPTY 0b00` -/
def CELL_EMPTY : Nat := 0

/-- `#define CELL_SHIP 0b01` -/
def CELL_SHIP : Nat := 1

/-- `#define CELL_HIT 0b10` -/
def CELL_HIT : Nat := 2

/-- `#define CELL_MISS 0b11` -/
def CELL_MISS : Nat := 3

/-- A packed grid buffer (`uint8_t*`): byte index to byte value. -/
abbrev Buf := Nat → Nat

/-- `setCellState` (battle_ship_test_code.ino:2634-2650).  Writes the 2-bit
cell value at bit offset `(y*GRID_SIZE+x)*2`, including the (dead, see the
claims) cross-byte-boundary branch guarded by `bitOffset > 6`.  Assignments
to `grid[...]` truncate to a byte (`% 256`). -/
def setCellState (grid : Buf) (x y state : Nat) : Buf :=
  let index := y * GRID_SIZE + x
  let bitIndex := index * 2
  let byteIndex := bitIndex / 8
  let bitOffset := bitIndex % 8
  let mask := (3 <<< bitOffset) % 256
  let g1 : Buf := fun i =>
    if i = byteIndex then
      ((grid byteIndex &&& (255 ^^^ mask)) ||| ((state &&& 3) <<< bitOffset)) % 256
    else grid i
  if bitOffset > 6 then
    let byteIndex2 := byteIndex + 1
    let bitOffset2 := (bitOffset + 2) % 8
    let mask2 := 3 >>> (6 - bitOffset2)
    fun i =>
      if i = byteIndex2 then
        ((g1 byteIndex2 &&& (255 ^^^ mask2)) ||| ((state &&& 3) >>> (8 - bitOffset2))) % 256
      else g1 i
  else g1

/-- `getCellState` (battle_ship_test_code.ino:2652-2668). -/
def getCellState (grid : Buf) (x y : Nat) : Nat :=
  let index := y * GRID_SIZE + x
  let bitIndex := index * 2
  let byteIndex := bitIndex / 8
  let bitOffset := bitIndex % 8
  let state := (grid byteIndex >>> bitOffset) &&& 3
  if bitOffset > 6 then
    let byteIndex2 := byteIndex + 1
    let bitOffset2 := (bitOffset + 2) % 8
    let nextBits := grid byteIndex2 &&& (3 >>> (6 - bitOffset2))
    (state ||| (nextBits <<< (8 - bitOffset2))) % 256
  else state

/-- Branch-free form of `setCellState`: the single-byte write that the
source performs when `bitOffset ≤ 6`. -/
def setCellStateNoCross (grid : Buf) (x y state : Nat) : Buf :=
  let bitIndex := (y * GRID_SIZE + x) * 2
  let byteIndex := bitIndex / 8
  let bitOffset := bitIndex % 8
  fun i =>
    if i = byteIndex then
      ((grid byteIndex &&& (255 ^^^ ((3 <<< bitOffset) % 256))) |||
        ((state &&& 3) <<< bitOffset)) % 256
    else grid i

/-- Branch-free form of `getCellState`: the single-byte read that the
source performs when `bitOffset ≤ 6`. -/
def getCellStateNoCross (grid : Buf) (x y : Nat) : Nat :=
  let bitIndex := (y * GRID_SIZE + x) * 2
  (grid (bitIndex / 8) >>> (bitIndex % 8)) &&& 3

theorem bitOffset_even (idx : Nat) : (idx * 2) % 8 = 2 * (idx % 4) := by
  omega

theorem bitOffset_le_six (idx : Nat) : (idx * 2) % 8 ≤ 6 := by
  omega

theorem setCellState_eq_noCross (grid : Buf) (x y state : Nat) :
    setCellState grid x y state = setCellStateNoCross grid x y state := by
  unfold setCellState setCellStateNoCross
  have h := bitOffset_le_six (y * GRID_SIZE + x)
  simp only []
  rw [if_neg (by omega)]

theorem getCellState_eq_noCross (grid : Buf) (x y : Nat) :
    getCellState grid x y = getCellStateNoCross grid x y := by
  unfold getCellState getCellStateNoCross
  have h := bitOffset_le_six (y * GRID_SIZE + x)
  simp only []
  rw [if_neg (by omega)]

set_option maxRecDepth 1000000 in
theorem byte_roundtrip : ∀ (b : Fin 256) (s : Fin 4) (k : Fin 4),
    ((((b.val &&& (255 ^^^ ((3 <<< (2 * k.val)) % 256))) |||
        ((s.val &&& 3) <<< (2 * k.val))) % 256) >>> (2 * k.val)) &&& 3 = s.val := by
  decide

set_option maxRecDepth 1000000 in
theorem byte_other_offset : ∀ (b : Fin 256) (s : Fin 4) (k j : Fin 4), k ≠ j →
    ((((b.val &&& (255 ^^^ ((3 <<< (2 * k.val)) % 256))) |||
        ((s.val &&& 3) <<< (2 * k.val))) % 256) >>> (2 * j.val)) &&& 3
      = (b.val >>> (2 * j.val)) &&& 3 := by
  decide

set_option maxRecDepth 2000000 in
theorem byte_testBit_other : ∀ (b : Fin 256) (s : Fin 4) (k : Fin 4) (j : Fin 8),
    j.val ≠ 2 * k.val → j.val ≠ 2 * k.val + 1 →
    Nat.testBit ((((b.val &&& (255 ^^^ ((3 <<< (2 * k.val)) % 256))) |||
        ((s.val &&& 3) <<< (2 * k.val))) % 256)) j.val
      = Nat.testBit b.val j.val := by
  decide

theorem and_eq_mod_and (b m : Nat) (hm : m < 256) : b &&& m = b % 256 &&& m := by
  apply Nat.eq_of_testBit_eq
  intro j
  simp only [Nat.testBit_and]
  rcases lt_or_ge j 8 with hj | hj
  · have h256 : (256 : Nat) = 2 ^ 8 := by norm_num
    rw [h256, Nat.testBit_mod_two_pow]
    simp [hj]
  · have hmj : m.testBit j = false := by
      apply Nat.testBit_lt_two_pow
      calc m < 256 := hm
        _ = 2 ^ 8 := by norm_num
        _ ≤ 2 ^ j := Nat.pow_le_pow_right (by norm_num) hj
    simp [hmj]

theorem read2_mod (b j : Nat) (hj : j ≤ 6) :
    ((b % 256) >>> j) &&& 3 = (b >>> j) &&& 3 := by
  apply Nat.eq_of_testBit_eq
  intro i
  simp only [Nat.testBit_and, Nat.testBit_shiftRight]
  rcases lt_or_ge i 2 with hi | hi
  · have h256 : (256 : Nat) = 2 ^ 8 := by norm_num
    rw [h256, Nat.testBit_mod_two_pow]
    have hji : j + i < 8 := by omega
    simp [hji]
  · have h3 : (3 : Nat).testBit i = false := by
      apply Nat.testBit_lt_two_pow
      calc (3 : Nat) < 4 := by norm_num
        _ = 2 ^ 2 := by norm_num
        _ ≤ 2 ^ i := Nat.pow_le_pow_right (by norm_num) hi
    simp [h3]

theorem mask_lt_256 (off : Nat) : 255 ^^^ ((3 <<< off) % 256) < 256 := by
  have h256 : (256 : Nat) = 2 ^ 8 := by norm_num
  rw [h256]
  exact Nat.xor_lt_two_pow (by norm_num) (Nat.mod_lt _ (by norm_num))

/-- Reading back the cell just written yields the written state. -/
theorem getCellState_setCellState_same (g : Buf) (x y s : Nat)
    (hx : x < GRID_SIZE) (hy : y < GRID_SIZE) (hs : s < 4) :
    getCellState (setCellState g x y s) x y = s := by
  rw [setCellState_eq_noCross, getCellState_eq_noCross]
  simp only [setCellStateNoCross, getCellStateNoCross, GRID_SIZE, ite_true]
  rw [bitOffset_even (y * 10 + x)]
  rw [and_eq_mod_and (g ((y * 10 + x) * 2 / 8))
    (255 ^^^ ((3 <<< (2 * ((y * 10 + x) % 4))) % 256)) (mask_lt_256 _)]
  exact byte_roundtrip ⟨g ((y * 10 + x) * 2 / 8) % 256, Nat.mod_lt _ (by norm_num)⟩
    ⟨s, hs⟩ ⟨(y * 10 + x) % 4, Nat.mod_lt _ (by norm_num)⟩

/-- Writing one cell leaves the value read at every other cell unchanged. -/
theorem getCellState_setCellState_ne (g : Buf) (x y s x' y' : Nat)
    (hx : x < GRID_SIZE) (hy : y < GRID_SIZE) (hs : s < 4)
    (hx' : x' < GRID_SIZE) (hy' : y' < GRID_SIZE)
    (hne : (x', y') ≠ (x, y)) :
    getCellState (setCellState g x y s) x' y' = getCellState g x' y' := by
  rw [setCellState_eq_noCross, getCellState_eq_noCross, getCellState_eq_noCross]
  simp only [GRID_SIZE] at hx hy hx' hy'
  simp only [setCellStateNoCross, getCellStateNoCross, GRID_SIZE]
  have hidxne : y' * 10 + x' ≠ y * 10 + x := by
    intro h
    have hxx : x' = x := by omega
    have hyy : y' = y := by omega
    exact hne (by simp [hxx, hyy])
  by_cases hb : (y' * 10 + x') * 2 / 8 = (y * 10 + x) * 2 / 8
  · rw [if_pos hb, hb]
    have hoffne : (y' * 10 + x') * 2 % 8 ≠ (y * 10 + x) * 2 % 8 := by omega
    rw [bitOffset_even (y * 10 + x), bitOffset_even (y' * 10 + x')] at hoffne ⊢
    rw [and_eq_mod_and (g ((y * 10 + x) * 2 / 8))
      (255 ^^^ ((3 <<< (2 * ((y * 10 + x) % 4))) % 256)) (mask_lt_256 _)]
    rw [← read2_mod (g ((y * 10 + x) * 2 / 8)) (2 * ((y' * 10 + x') % 4)) (by omega)]
    exact byte_other_offset ⟨g ((y * 10 + x) * 2 / 8) % 256, Nat.mod_lt _ (by norm_num)⟩
      ⟨s, hs⟩ ⟨(y * 10 + x) % 4, Nat.mod_lt _ (by norm_num)⟩
      ⟨(y' * 10 + x') % 4, Nat.mod_lt _ (by norm_num)⟩
      (by intro hkj
          rw [Fin.mk.injEq] at hkj
          omega)
  · rw [if_neg hb]

/-- A write touches no bit of the buffer outside the two bits addressed by
the cell's byte index and bit offset. -/
theorem setCellState_testBit_other (g : Buf) (x y s : Nat)
    (hx : x < GRID_SIZE) (hy : y < GRID_SIZE) (hs : s < 4) (hg : ∀ i, g i < 256)
    (i j : Nat)
    (hout : i ≠ (y * GRID_SIZE + x) * 2 / 8 ∨
      (j ≠ (y * GRID_SIZE + x) * 2 % 8 ∧ j ≠ (y * GRID_SIZE + x) * 2 % 8 + 1)) :
    (setCellState g x y s i).testBit j = (g i).testBit j := by
  rw [setCellState_eq_noCross]
  simp only [GRID_SIZE] at hout
  simp only [setCellStateNoCross, GRID_SIZE]
  by_cases hbi : i = (y * 10 + x) * 2 / 8
  · rw [if_pos hbi]
    subst hbi
    have hj : j ≠ (y * 10 + x) * 2 % 8 ∧ j ≠ (y * 10 + x) * 2 % 8 + 1 := by
      rcases hout with h | h
      · exact absurd rfl h
      · exact h
    rcases lt_or_ge j 8 with hj8 | hj8
    · rw [bitOffset_even (y * 10 + x)] at hj ⊢
      exact byte_testBit_other ⟨g ((y * 10 + x) * 2 / 8), hg _⟩ ⟨s, hs⟩
        ⟨(y * 10 + x) % 4, Nat.mod_lt _ (by norm_num)⟩ ⟨j, hj8⟩ hj.1 hj.2
    · have h2j : (256 : Nat) ≤ 2 ^ j := by
        calc (256 : Nat) = 2 ^ 8 := by norm_num
          _ ≤ 2 ^ j := Nat.pow_le_pow_right (by norm_num) hj8
      rw [Nat.testBit_lt_two_pow (lt_of_lt_of_le (Nat.mod_lt _ (by norm_num)) h2j),
        Nat.testBit_lt_two_pow (lt_of_lt_of_le (hg _) h2j)]
  · rw [if_neg hbi]

/-- Ship sizes of the roster `ships[NUM_SHIPS]` (Carrier 5, Battleship 4,
Cruiser 3, Submarine 3, Destroyer 2). -/
def shipSizes : List Nat := [5, 4, 3, 3, 2]

/-- `canPlaceShip` (battle_ship_test_code.ino:2052-2069): bounds check on
the extended axis, then an all-cells-empty scan of the footprint. -/
def canPlaceShip (grid : Buf) (x y size : Nat) (horizontal : Bool) : Bool :=
  if horizontal then
    if x + size > GRID_SIZE then false
    else (List.range size).all fun i => getCellState grid (x + i) y == CELL_EMPTY
  else
    if y + size > GRID_SIZE then false
    else (List.range size).all fun i => getCellState grid x (y + i) == CELL_EMPTY

/-- `placeShip` (battle_ship_test_code.ino:2071-2081): write `CELL_SHIP`
to each footprint cell. -/
def placeShip (grid : Buf) (x y size : Nat) (horizontal : Bool) : Buf :=
  if horizontal then
    (List.range size).foldl (fun g i => setCellState g (x + i) y CELL_SHIP) grid
  else
    (List.range size).foldl (fun g i => setCellState g x (y + i) CELL_SHIP) grid

/-- `countRemainingShips` (battle_ship_test_code.ino:2488-2498): number of
cells still in state `CELL_SHIP`. -/
def countRemainingShips (grid : Buf) : Nat :=
  ((List.range GRID_SIZE).map fun x =>
    ((List.range GRID_SIZE).filter fun y =>
      getCellState grid x y == CELL_SHIP).length).sum

/-- The global mutable state of the sketch (the game-relevant globals of
battle_ship_test_code.ino lines 1783-1841). -/
structure TCState where
  playerGrid : Buf
  arduinoGrid : Buf
  playerAttackGrid : Buf
  arduinoAttackGrid : Buf
  cursorX : Nat
  cursorY : Nat
  playerShipHorizontal : Bool
  shipId : Nat
  gameState : GamePhase
  arduinoAttackMode : AttackMode
  lastHitX : Nat
  lastHitY : Nat
  targetIndex : Nat
  targetList : Fin 4 → Nat × Nat
  targetListInitialized : Bool

/-- Core of `playerAttack` (battle_ship_test_code.ino:2247-2314), the state
change on a red-button press at the cursor: reject if the attacker's attack
grid is not `CELL_EMPTY` there; otherwise hit (both grids to `CELL_HIT`) or
miss (both grids to `CELL_MISS`), then run the win check on the updated
defender grid (`GAME_OVER` on zero remaining, else `ARDUINO_TURN`). -/
def playerAttack (st : TCState) : AttackResult × TCState :=
  if getCellState st.playerAttackGrid st.cursorX st.cursorY = CELL_EMPTY then
    let hitShip := getCellState st.arduinoGrid st.cursorX st.cursorY = CELL_SHIP
    let pag := setCellState st.playerAttackGrid st.cursorX st.cursorY
      (if hitShip then CELL_HIT else CELL_MISS)
    let ag := setCellState st.arduinoGrid st.cursorX st.cursorY
      (if hitShip then CELL_HIT else CELL_MISS)
    let res := if hitShip then AttackResult.hit else AttackResult.miss
    let phase := if countRemainingShips ag = 0 then GamePhase.gameOver
      else GamePhase.arduinoTurn
    (res, { st with playerAttackGrid := pag, arduinoGrid := ag, gameState := phase })
  else
    (AttackResult.rejected, st)

/-- Target-list initialization block of `arduinoAttack`
(battle_ship_test_code.ino:2380-2407): writes the in-bounds orthogonal
neighbors of the last hit into slots `0..idx-1` of the 4-entry array, in
left, right, up, down order.  Slots beyond `idx` keep their old (stale)
contents — the C code only overwrites the prefix. -/
def buildTargetArray (hx hy : Nat) (old : Fin 4 → Nat × Nat) : Fin 4 → Nat × Nat :=
  let entries :=
    (if hx > 0 then [(hx - 1, hy)] else []) ++
    (if hx < GRID_SIZE - 1 then [(hx + 1, hy)] else []) ++
    (if hy > 0 then [(hx, hy - 1)] else []) ++
    (if hy < GRID_SIZE - 1 then [(hx, hy + 1)] else [])
  fun i => if h : i.val < entries.length then entries.get ⟨i.val, h⟩ else old i

/-- The `while (targetIndex < 4)` scan of `arduinoAttack`
(battle_ship_test_code.ino:2409-2418), recursing on the number of slots
still to examine: returns the first slot at index `≥ i` whose cell is
untried on the AI's attack grid, together with the advanced `targetIndex`
(one past the chosen slot). -/
def scanAux (tl : Fin 4 → Nat × Nat) (ag : Buf) : Nat → Nat → Option ((Nat × Nat) × Nat)
  | 0, _ => none
  | r + 1, i =>
    if h : i < 4 then
      let p := tl ⟨i, h⟩
      if getCellState ag p.1 p.2 = CELL_EMPTY then some (p, i + 1)
      else scanAux tl ag r (i + 1)
    else none

/-- Scan of the whole remaining queue starting at `targetIndex`. -/
def scanTargets (tl : Fin 4 → Nat × Nat) (ag : Buf) (targetIndex : Nat) :
    Option ((Nat × Nat) × Nat) :=
  scanAux tl ag (4 - targetIndex) targetIndex

/-- Shared hit/miss resolution of `arduinoAttack` at a chosen cell (the
identical hit/miss blocks of the hunt branch, lines 2343-2377, and of the
target branch, lines 2420-2457): a hit writes `CELL_HIT` to both grids,
records the hit coordinate, (re)enters `TARGET_MODE` and resets the queue
flags; a miss writes `CELL_MISS` to both grids. -/
def resolveAt (st : TCState) (x y : Nat) : AttackResult × TCState :=
  if getCellState st.playerGrid x y = CELL_SHIP then
    (AttackResult.hit,
      { st with
        arduinoAttackGrid := setCellState st.arduinoAttackGrid x y CELL_HIT,
        playerGrid := setCellState st.playerGrid x y CELL_HIT,
        lastHitX := x, lastHitY := y,
        arduinoAttackMode := AttackMode.target,
        targetIndex := 0, targetListInitialized := false })
  else
    (AttackResult.miss,
      { st with
        arduinoAttackGrid := setCellState st.arduinoAttackGrid x y CELL_MISS,
        playerGrid := setCellState st.playerGrid x y CELL_MISS })

/-- Hunt-mode branch of `arduinoAttack` (battle_ship_test_code.ino:
2331-2377).  The `do { x = random(..); y = random(..); } while` rejection
sampling is modelled by an explicit oracle `rng` of sampled coordinate
pairs; the loop terminates exactly when the oracle eventually yields an
untried cell (`none` models the loop never terminating). -/
def huntStep (st : TCState) (rng : List (Nat × Nat)) :
    Option ((Nat × Nat) × AttackResult × TCState) :=
  match rng.find? (fun p => getCellState st.arduinoAttackGrid p.1 p.2 == CELL_EMPTY) with
  | some p => some (p, resolveAt st p.1 p.2)
  | none => none

/-- Win check and turn switch at the end of `arduinoAttack`
(battle_ship_test_code.ino:2466-2482). -/
def arduinoPhase (st : TCState) : TCState :=
  if countRemainingShips st.playerGrid = 0 then { st with gameState := GamePhase.gameOver }
  else { st with gameState := GamePhase.playerTurn }

/-- `arduinoAttack` (battle_ship_test_code.ino:2327-2482).  In target
mode the 4-slot array is lazily (re)built around the last hit, the scan
consumes slots in order, and an exhausted scan falls back to
`HUNT_MODE` and retries in the same call (the bounded self-recursion of
line 2461, inlined).  Every resolved attack ends with the win check. -/
def arduinoAttack (st : TCState) (rng : List (Nat × Nat)) :
    Option ((Nat × Nat) × AttackResult × TCState) :=
  match st.arduinoAttackMode with
  | AttackMode.hunt =>
    (huntStep st rng).map fun r => (r.1, r.2.1, arduinoPhase r.2.2)
  | AttackMode.target =>
    let st1 :=
      if st.targetListInitialized then st
      else { st with
        targetIndex := 0,
        targetList := buildTargetArray st.lastHitX st.lastHitY st.targetList,
        targetListInitialized := true }
    match scanTargets st1.targetList st1.arduinoAttackGrid st1.targetIndex with
    | some (p, newIdx) =>
      let r := resolveAt { st1 with targetIndex := newIdx } p.1 p.2
      some (p, r.1, arduinoPhase r.2)
    | none =>
      (huntStep { st1 with arduinoAttackMode := AttackMode.hunt, targetIndex := 4 } rng).map
        fun r => (r.1, r.2.1, arduinoPhase r.2.2)

/-- Core of `playerPlaceShips` (battle_ship_test_code.ino:2083-2123): when
all roster ships are placed, move to `PLAYER_TURN`; otherwise a red-button
press attempts to place the current roster ship at the cursor (cursor
movement, orientation toggling and rendering are I/O and omitted). -/
def playerPlaceShips (st : TCState) (redPressed : Bool) : TCState :=
  if st.shipId ≥ NUM_SHIPS then { st with gameState := GamePhase.playerTurn }
  else if redPressed then
    let size := shipSizes.getD st.shipId 0
    if canPlaceShip st.playerGrid st.cursorX st.cursorY size st.playerShipHorizontal then
      { st with
        playerGrid := placeShip st.playerGrid st.cursorX st.cursorY size
          st.playerShipHorizontal,
        shipId := st.shipId + 1 }
    else st
  else st

/-- One attempt loop of `placeArduinoShips` for a single ship: consume
`(x, y, horizontal)` samples from the randomness oracle until
`canPlaceShip` succeeds, then commit via `placeShip`. -/
def placeOneShip (g : Buf) (size : Nat) :
    List (Nat × Nat × Bool) → Option (Buf × List (Nat × Nat × Bool))
  | [] => none
  | (x, y, h) :: rest =>
    if canPlaceShip g x y size h then some (placeShip g x y size h, rest)
    else placeOneShip g size rest

/-- `placeArduinoShips` (battle_ship_test_code.ino:2031-2050): place each
roster ship in order by rejection sampling from the oracle. -/
def placeArduinoShips (g : Buf) : List Nat → List (Nat × Nat × Bool) → Option Buf
  | [], _ => some g
  | size :: sizes, rng =>
    match placeOneShip g size rng with
    | some (g', rest) => placeArduinoShips g' sizes rest
    | none => none

/-- The all-zero buffer produced by `initializeGrids` (memset to 0). -/
def zeroBuf : Buf := fun _ => 0

/-- `resetGame` (battle_ship_test_code.ino:1975-2021): clear all four
grids, re-place the Arduino ships, reset cursor, orientation, `shipId`,
the AI mode variables (the stale `targetList` array contents are not
touched), and enter `PLACING_SHIPS`. -/
def resetGame (st : TCState) (placeRng : List (Nat × Nat × Bool)) : Option TCState :=
  match placeArduinoShips zeroBuf shipSizes placeRng with
  | none => none
  | some ag =>
    some { playerGrid := zeroBuf, arduinoGrid := ag,
           playerAttackGrid := zeroBuf, arduinoAttackGrid := zeroBuf,
           cursorX := 0, cursorY := 0,
           playerShipHorizontal := true, shipId := 0,
           gameState := GamePhase.placing,
           arduinoAttackMode := AttackMode.hunt,
           lastHitX := 0, lastHitY := 0, targetIndex := 0,
           targetList := st.targetList, targetListInitialized := false }

/-- External inputs consumed by one iteration of `loop()` (blue-button
press kind, red-button state, and the randomness oracles). -/
structure LoopInput where
  blueLongPress : Bool
  blueShortPress : Bool
  redPressed : Bool
  rng : List (Nat × Nat)
  placeRng : List (Nat × Nat × Bool)

/-- One iteration of `loop()` (battle_ship_test_code.ino:1899-1973): a
long blue press resets in any phase; a short blue press resets only in
`WAITING_TO_START` or `GAME_OVER`; otherwise dispatch on the phase.
`none` models an iteration that does not complete (AI hunt sampling never
finding an untried cell). -/
def loopStep (st : TCState) (inp : LoopInput) : Option TCState :=
  if inp.blueLongPress then resetGame st inp.placeRng
  else if inp.blueShortPress ∧
      (st.gameState = GamePhase.waiting ∨ st.gameState = GamePhase.gameOver) then
    resetGame st inp.placeRng
  else
    match st.gameState with
    | GamePhase.waiting => some st
    | GamePhase.placing => some (playerPlaceShips st inp.redPressed)
    | GamePhase.playerTurn =>
      some (if inp.redPressed then (playerAttack st).2 else st)
    | GamePhase.arduinoTurn => (arduinoAttack st inp.rng).map fun r => r.2.2
    | GamePhase.gameOver => some st

/-- Number of untried cells (state `CELL_EMPTY`) of an attack grid. -/
def untriedCount (g : Buf) : Nat :=
  ((Finset.range GRID_SIZE ×ˢ Finset.range GRID_SIZE).filter
    (fun q : Nat × Nat => getCellState g q.1 q.2 = CELL_EMPTY)).card

end TestCode

namespace SerialMonitor

/-- `#define GRID_SIZE 12` -/
def GRID_SIZE : Nat := 12

/-- `#define NUM_SHIPS 7` -/
def NUM_SHIPS : Nat := 7

/-- `const int8_t EMPTY = 0` -/
def EMPTY : Int := 0

/-- `const int8_t SHIP_HIT = -1` -/
def SHIP_HIT : Int := -1

/-- `const uint8_t ATTACK_UNTRIED = 0` -/
def ATTACK_UNTRIED : Nat := 0

/-- `const uint8_t ATTACK_MISS = 1` -/
def ATTACK_MISS : Nat := 1

/-- `const uint8_t ATTACK_HIT = 2` -/
def ATTACK_HIT : Nat := 2

/-- An `int8_t grid[GRID_SIZE][GRID_SIZE]` ownership grid, indexed
`grid x y` like `grid[x][y]`: `0` empty, positive ship id, `-1` hit. -/
abbrev OwnGrid := Nat → Nat → Int

/-- A `uint8_t` attack grid: `0` untried, `1` miss, `2` hit. -/
abbrev AtkGrid := Nat → Nat → Nat

/-- Single-cell write `grid[x][y] = v` on an ownership grid. -/
def writeOwn (g : OwnGrid) (x y : Nat) (v : Int) : OwnGrid :=
  fun a b => if a = x ∧ b = y then v else g a b

/-- Single-cell write `grid[x][y] = v` on an attack grid. -/
def writeAtk (g : AtkGrid) (x y : Nat) (v : Nat) : AtkGrid :=
  fun a b => if a = x ∧ b = y then v else g a b

/-- Ship sizes of the 7-ship roster (Carrier 5, Battleship 4, Cruiser 3,
Submarine 3, Destroyer 2, Patrol Boat 2, Dinghy 1). -/
def shipSizes : List Nat := [5, 4, 3, 3, 2, 2, 1]

/-- The nine `(dx, dy)` offsets of the surrounding-cell scan of
`canPlaceShip`, in loop order (`dx` outer from -1 to 1, `dy` inner). -/
def neighborOffsets : List (Int × Int) :=
  [(-1, -1), (-1, 0), (-1, 1), (0, -1), (0, 0), (0, 1), (1, -1), (1, 0), (1, 1)]

/-- One surrounding-cell check of `canPlaceShip`
(battle_ship_serial_monitor.ino:301-311): passes unless the neighbor is in
bounds, non-empty and not the footprint cell itself. -/
def neighborClear (grid : OwnGrid) (xi yi : Nat) (d : Int × Int) : Bool :=
  let nx : Int := (xi : Int) + d.1
  let ny : Int := (yi : Int) + d.2
  !(decide (0 ≤ nx) && decide (nx < (GRID_SIZE : Int)) &&
    decide (0 ≤ ny) && decide (ny < (GRID_SIZE : Int)) &&
    !(grid nx.toNat ny.toNat == EMPTY) &&
    !(decide (nx = (xi : Int)) && decide (ny = (yi : Int))))

/-- Per-footprint-cell check of the strict validator: the cell itself must
be `EMPTY` and every surrounding cell must pass `neighborClear`. -/
def cellOK (grid : OwnGrid) (xi yi : Nat) : Bool :=
  (grid xi yi == EMPTY) && neighborOffsets.all (neighborClear grid xi yi)

/-- Strict `canPlaceShip` (battle_ship_serial_monitor.ino:289-338): bounds
check on the extended axis, then for every footprint cell the emptiness
check plus the 8-neighbor adjacency scan. -/
def canPlaceShip (grid : OwnGrid) (x y size : Nat) (horizontal : Bool) : Bool :=
  if horizontal then
    if x + size > GRID_SIZE then false
    else (List.range size).all fun i => cellOK grid (x + i) y
  else
    if y + size > GRID_SIZE then false
    else (List.range size).all fun i => cellOK grid x (y + i)

/-- `placeShip` (battle_ship_serial_monitor.ino:340-350): write the ship
id to each footprint cell. -/
def placeShip (grid : OwnGrid) (x y size : Nat) (horizontal : Bool)
    (shipId : Nat) : OwnGrid :=
  if horizontal then
    (List.range size).foldl (fun g i => writeOwn g (x + i) y (shipId : Int)) grid
  else
    (List.range size).foldl (fun g i => writeOwn g x (y + i) (shipId : Int)) grid

/-- `countRemainingShips` (battle_ship_serial_monitor.ino:810-831): a ship
id `i+1` counts as remaining when some cell still holds it; distinct
remaining ids are counted. -/
def countRemainingShips (grid : OwnGrid) : Nat :=
  ((List.range NUM_SHIPS).filter fun i =>
    (List.range GRID_SIZE).any fun x =>
      (List.range GRID_SIZE).any fun y => grid x y == ((i : Int) + 1)).length

/-- Core of the serial-monitor `playerAttack`
(battle_ship_serial_monitor.ino:480-543): reject unless untried; a hit
writes `ATTACK_HIT` and marks the ownership cell `SHIP_HIT`; a miss writes
only `ATTACK_MISS` on the attack grid; then the win check on the updated
defender grid. -/
def playerAttack (pag : AtkGrid) (ag : OwnGrid) (x y : Nat) :
    TestCode.AttackResult × AtkGrid × OwnGrid × TestCode.GamePhase :=
  if pag x y = ATTACK_UNTRIED then
    if ag x y > 0 then
      let ag2 := writeOwn ag x y SHIP_HIT
      (TestCode.AttackResult.hit, writeAtk pag x y ATTACK_HIT, ag2,
        if countRemainingShips ag2 = 0 then TestCode.GamePhase.gameOver
        else TestCode.GamePhase.arduinoTurn)
    else
      (TestCode.AttackResult.miss, writeAtk pag x y ATTACK_MISS, ag,
        if countRemainingShips ag = 0 then TestCode.GamePhase.gameOver
        else TestCode.GamePhase.arduinoTurn)
  else (TestCode.AttackResult.rejected, pag, ag, TestCode.GamePhase.playerTurn)

/-- One attempt loop of `placeArduinoShips` for a single ship
(battle_ship_serial_monitor.ino:274-285). -/
def placeOneShip (g : OwnGrid) (size shipId : Nat) :
    List (Nat × Nat × Bool) → Option (OwnGrid × List (Nat × Nat × Bool))
  | [] => none
  | (x, y, h) :: rest =>
    if canPlaceShip g x y size h then some (placeShip g x y size h shipId, rest)
    else placeOneShip g size shipId rest

/-- `placeArduinoShips` (battle_ship_serial_monitor.ino:268-287): each
roster ship in order, with ship id `shipId + 1`. -/
def placeArduinoShipsAux (g : OwnGrid) (shipId : Nat) :
    List Nat → List (Nat × Nat × Bool) → Option OwnGrid
  | [], _ => some g
  | size :: sizes, rng =>
    match placeOneShip g size (shipId + 1) rng with
    | some (g', rest) => placeArduinoShipsAux g' (shipId + 1) sizes rest
    | none => none

/-- `placeArduinoShips` over the full roster on a given grid. -/
def placeArduinoShips (g : OwnGrid) (rng : List (Nat × Nat × Bool)) : Option OwnGrid :=
  placeArduinoShipsAux g 0 shipSizes rng

/-- The all-empty ownership grid written by `initializeGrids`. -/
def emptyOwn : OwnGrid := fun _ _ => EMPTY

/-- The all-untried attack grid written by `initializeGrids`. -/
def emptyAtk : AtkGrid := fun _ _ => ATTACK_UNTRIED

/-- The game-relevant globals of battle_ship_serial_monitor.ino. -/
structure SMState where
  playerGrid : OwnGrid
  arduinoGrid : OwnGrid
  playerAttackGrid : AtkGrid
  arduinoAttackGrid : AtkGrid
  cursorX : Nat
  cursorY : Nat
  playerShipHorizontal : Bool
  shipId : Nat
  gameState : TestCode.GamePhase
  arduinoAttackMode : TestCode.AttackMode
  lastHitX : Nat
  lastHitY : Nat
  targetIndex : Nat
  targetList : Fin 4 → Nat × Nat
  targetListInitialized : Bool

/-- `resetGame` (battle_ship_serial_monitor.ino:211-254): initialize all
four grids, re-place the Arduino ships, reset cursor, orientation, the
global `shipId`, the AI-mode variables (mode `HUNT`, last hit, index and
the initialized flag; the stale `targetList` array contents are not
touched) and enter `PLACING_SHIPS`. -/
def resetGame (st : SMState) (placeRng : List (Nat × Nat × Bool)) : Option SMState :=
  match placeArduinoShips emptyOwn placeRng with
  | none => none
  | some ag =>
    some { playerGrid := emptyOwn, arduinoGrid := ag,
           playerAttackGrid := emptyAtk, arduinoAttackGrid := emptyAtk,
           cursorX := 0, cursorY := 0,
           playerShipHorizontal := true, shipId := 0,
           gameState := TestCode.GamePhase.placing,
           arduinoAttackMode := TestCode.AttackMode.hunt,
           lastHitX := 0, lastHitY := 0, targetIndex := 0,
           targetList := st.targetList, targetListInitialized := false }

end SerialMonitor

namespace Part1

/-- `#define GRID_SIZE 12` (src/unnamed/part_001). -/
def GRID_SIZE : Nat := 12

/-- `#define NUM_SHIPS 7` -/
def NUM_SHIPS : Nat := 7

/-- `const int8_t EMPTY = 0` -/
def EMPTY : Int := 0

/-- `const int8_t SHIP_PRESENT = 1` -/
def SHIP_PRESENT : Int := 1

/-- `canPlaceShip` (src/unnamed/part_001:219-232): bounds check on the
extended axis, then an all-cells-empty scan of the footprint. -/
def canPlaceShip (grid : SerialMonitor.OwnGrid) (x y size : Nat)
    (horizontal : Bool) : Bool :=
  if horizontal then
    if x + size > GRID_SIZE then false
    else (List.range size).all fun i => grid (x + i) y == EMPTY
  else
    if y + size > GRID_SIZE then false
    else (List.range size).all fun i => grid x (y + i) == EMPTY

/-- `placeShip` (src/unnamed/part_001:234-244): writes `SHIP_PRESENT`. -/
def placeShip (grid : SerialMonitor.OwnGrid) (x y size : Nat)
    (horizontal : Bool) : SerialMonitor.OwnGrid :=
  if horizontal then
    (List.range size).foldl (fun g i => SerialMonitor.writeOwn g (x + i) y SHIP_PRESENT) grid
  else
    (List.range size).foldl (fun g i => SerialMonitor.writeOwn g x (y + i) SHIP_PRESENT) grid

/-- The part_001 globals, plus the function-local `static uint8_t shipId`
of `playerPlaceShips` (src/unnamed/part_001:247), which survives across
calls and is not a global that `resetGame` touches. -/
structure P1State where
  playerGrid : SerialMonitor.OwnGrid
  arduinoGrid : SerialMonitor.OwnGrid
  playerAttackGrid : SerialMonitor.AtkGrid
  arduinoAttackGrid : SerialMonitor.AtkGrid
  cursorX : Nat
  cursorY : Nat
  playerShipHorizontal : Bool
  gameState : TestCode.GamePhase
  staticShipId : Nat

/-- One attempt loop of part_001 `placeArduinoShips` for a single ship. -/
def placeOneShip (g : SerialMonitor.OwnGrid) (size : Nat) :
    List (Nat × Nat × Bool) → Option (SerialMonitor.OwnGrid × List (Nat × Nat × Bool))
  | [] => none
  | (x, y, h) :: rest =>
    if canPlaceShip g x y size h then some (placeShip g x y size h, rest)
    else placeOneShip g size rest

/-- `placeArduinoShips` (src/unnamed/part_001:198-217). -/
def placeArduinoShips (g : SerialMonitor.OwnGrid) :
    List Nat → List (Nat × Nat × Bool) → Option SerialMonitor.OwnGrid
  | [], _ => some g
  | size :: sizes, rng =>
    match placeOneShip g size rng with
    | some (g', rest) => placeArduinoShips g' sizes rest
    | none => none

/-- `resetGame` (src/unnamed/part_001:157-184): re-initializes the grids,
places the Arduino ships, resets the cursor and enters `PLACING_SHIPS`.
It does not (and cannot) reset the function-local static `shipId` of
`playerPlaceShips`, nor the orientation. -/
def resetGame (st : P1State) (placeRng : List (Nat × Nat × Bool)) : Option P1State :=
  match placeArduinoShips SerialMonitor.emptyOwn SerialMonitor.shipSizes placeRng with
  | none => none
  | some ag =>
    some { st with
           playerGrid := SerialMonitor.emptyOwn, arduinoGrid := ag,
           playerAttackGrid := SerialMonitor.emptyAtk,
           arduinoAttackGrid := SerialMonitor.emptyAtk,
           cursorX := 0, cursorY := 0,
           gameState := TestCode.GamePhase.placing }

/-- Entry check of part_001 `playerPlaceShips` (src/unnamed/part_001:
246-257): with the static `shipId` already at `NUM_SHIPS`, the handler
immediately switches to `PLAYER_TURN` without placing anything. -/
def playerPlaceShipsEntry (st : P1State) : P1State :=
  if st.staticShipId ≥ NUM_SHIPS then { st with gameState := TestCode.GamePhase.playerTurn }
  else st

end Part1

/-- C1: for every in-bounds coordinate and every one of the four states,
reading a cell after writing it returns the written state; the value read
at every other in-bounds cell is unchanged by the write; and `setCellState`
overwrites exactly the two addressed bits, leaving every other bit of the
(well-formed) buffer unchanged.  Since the computed bit offset of an
in-bounds cell is always even, no in-bounds cell straddles a byte
boundary, so this covers every in-bounds cell. -/
theorem C1_setCell_getCell_roundtrip_noninterference
    (g : TestCode.Buf) (x y s : Nat)
    (hx : x < TestCode.GRID_SIZE) (hy : y < TestCode.GRID_SIZE) (hs : s < 4)
    (hg : ∀ i, g i < 256) :
    TestCode.getCellState (TestCode.setCellState g x y s) x y = s ∧
    (∀ x' y', x' < TestCode.GRID_SIZE → y' < TestCode.GRID_SIZE →
      (x', y') ≠ (x, y) →
      TestCode.getCellState (TestCode.setCellState g x y s) x' y'
        = TestCode.getCellState g x' y') ∧
    (∀ i j, (i ≠ (y * TestCode.GRID_SIZE + x) * 2 / 8 ∨
        (j ≠ (y * TestCode.GRID_SIZE + x) * 2 % 8 ∧
          j ≠ (y * TestCode.GRID_SIZE + x) * 2 % 8 + 1)) →
      (TestCode.setCellState g x y s i).testBit j = (g i).testBit j) := by
  refine ⟨TestCode.getCellState_setCellState_same g x y s hx hy hs, ?_, ?_⟩
  · intro x' y' hx' hy' hne
    exact TestCode.getCellState_setCellState_ne g x y s x' y' hx hy hs hx' hy' hne
  · intro i j hout
    exact TestCode.setCellState_testBit_other g x y s hx hy hs hg i j hout

/-- Witness for C1 at buffer 0, cell (3,7), state 2. -/
theorem C1_witness :
    (3 < TestCode.GRID_SIZE ∧ 7 < TestCode.GRID_SIZE ∧ 2 < 4 ∧
      (∀ i, TestCode.zeroBuf i < 256)) ∧
    TestCode.getCellState (TestCode.setCellState TestCode.zeroBuf 3 7 2) 3 7 = 2 :=
  ⟨⟨by decide, by decide, by decide, fun _ => Nat.zero_lt_succ 255⟩,
    (C1_setCell_getCell_roundtrip_noninterference TestCode.zeroBuf 3 7 2
      (by decide) (by decide) (by decide) (fun _ => Nat.zero_lt_succ 255)).1⟩

/-- C10: for every in-bounds cell the bit offset `(y*N+x)*2 % 8` is even
(one of 0, 2, 4, 6), so a cell's two bits lie entirely within one byte and
the cross-byte branch guarded by `bitOffset > 6` is unreachable: both
`setCellState` and `getCellState` coincide with their branch-free
single-byte forms. -/
theorem C10_bitOffset_even_cross_branch_dead (x y : Nat)
    (hx : x < TestCode.GRID_SIZE) (hy : y < TestCode.GRID_SIZE) :
    ((y * TestCode.GRID_SIZE + x) * 2 % 8 = 0 ∨
      (y * TestCode.GRID_SIZE + x) * 2 % 8 = 2 ∨
      (y * TestCode.GRID_SIZE + x) * 2 % 8 = 4 ∨
      (y * TestCode.GRID_SIZE + x) * 2 % 8 = 6) ∧
    (∀ g s, TestCode.setCellState g x y s = TestCode.setCellStateNoCross g x y s) ∧
    (∀ g, TestCode.getCellState g x y = TestCode.getCellStateNoCross g x y) := by
  refine ⟨by omega, fun g s => TestCode.setCellState_eq_noCross g x y s,
    fun g => TestCode.getCellState_eq_noCross g x y⟩

/-- Witness for C10 at cell (7,9). -/
theorem C10_witness :
    (7 < TestCode.GRID_SIZE ∧ 9 < TestCode.GRID_SIZE) ∧
    ((9 * TestCode.GRID_SIZE + 7) * 2 % 8 = 0 ∨
      (9 * TestCode.GRID_SIZE + 7) * 2 % 8 = 2 ∨
      (9 * TestCode.GRID_SIZE + 7) * 2 % 8 = 4 ∨
      (9 * TestCode.GRID_SIZE + 7) * 2 % 8 = 6) :=
  ⟨⟨by decide, by decide⟩,
    (C10_bitOffset_even_cross_branch_dead 7 9 (by decide) (by decide)).1⟩

/-- C4 counterexample: the claim quantifies over every anchor, but
`canPlaceShip` only bounds-checks the axis the ship extends along.  On the
all-zero 10×10 buffer it accepts a horizontal size-1 ship anchored at
(0,10), whose single footprint cell (0,10) lies outside the grid
(row 10 ≥ N). -/
theorem C4_counterexample :
    TestCode.canPlaceShip TestCode.zeroBuf 0 10 1 true = true ∧
    ¬ (10 < TestCode.GRID_SIZE) := by
  refine ⟨by decide, by decide⟩

/-- C4 (amended: anchors restricted to in-bounds coordinates, matching the
spec's caller-discipline contract): for both the `test_code` and the
`part_001` validator, every accepted placement has its full footprint in
bounds and every footprint cell `EMPTY`. -/
theorem C4_canPlaceShip_accepted_footprint_empty :
    (∀ (g : TestCode.Buf) (x y size : Nat) (horizontal : Bool),
      x < TestCode.GRID_SIZE → y < TestCode.GRID_SIZE →
      TestCode.canPlaceShip g x y size horizontal = true →
      ∀ i, i < size →
        (horizontal = true → x + i < TestCode.GRID_SIZE ∧ y < TestCode.GRID_SIZE ∧
          TestCode.getCellState g (x + i) y = TestCode.CELL_EMPTY) ∧
        (horizontal = false → x < TestCode.GRID_SIZE ∧ y + i < TestCode.GRID_SIZE ∧
          TestCode.getCellState g x (y + i) = TestCode.CELL_EMPTY)) ∧
    (∀ (g : SerialMonitor.OwnGrid) (x y size : Nat) (horizontal : Bool),
      x < Part1.GRID_SIZE → y < Part1.GRID_SIZE →
      Part1.canPlaceShip g x y size horizontal = true →
      ∀ i, i < size →
        (horizontal = true → x + i < Part1.GRID_SIZE ∧ y < Part1.GRID_SIZE ∧
          g (x + i) y = Part1.EMPTY) ∧
        (horizontal = false → x < Part1.GRID_SIZE ∧ y + i < Part1.GRID_SIZE ∧
          g x (y + i) = Part1.EMPTY)) := by
  constructor
  · intro g x y size horizontal hx hy hacc i hi
    cases horizontal
    · refine ⟨fun h => by simp at h, fun _ => ?_⟩
      simp only [TestCode.canPlaceShip, if_false, Bool.false_eq_true] at hacc
      by_cases hb : y + size > TestCode.GRID_SIZE
      · rw [if_pos hb] at hacc
        exact absurd hacc (by simp)
      · rw [if_neg hb] at hacc
        rw [List.all_eq_true] at hacc
        have hcell := hacc i (List.mem_range.mpr hi)
        simp only [beq_iff_eq] at hcell
        simp only [TestCode.GRID_SIZE] at hx hy hb ⊢
        exact ⟨hx, by omega, hcell⟩
    · refine ⟨fun _ => ?_, fun h => by simp at h⟩
      simp only [TestCode.canPlaceShip, if_true] at hacc
      by_cases hb : x + size > TestCode.GRID_SIZE
      · rw [if_pos hb] at hacc
        exact absurd hacc (by simp)
      · rw [if_neg hb] at hacc
        rw [List.all_eq_true] at hacc
        have hcell := hacc i (List.mem_range.mpr hi)
        simp only [beq_iff_eq] at hcell
        simp only [TestCode.GRID_SIZE] at hx hy hb ⊢
        exact ⟨by omega, hy, hcell⟩
  · intro g x y size horizontal hx hy hacc i hi
    cases horizontal
    · refine ⟨fun h => by simp at h, fun _ => ?_⟩
      simp only [Part1.canPlaceShip, if_false, Bool.false_eq_true] at hacc
      by_cases hb : y + size > Part1.GRID_SIZE
      · rw [if_pos hb] at hacc
        exact absurd hacc (by simp)
      · rw [if_neg hb] at hacc
        rw [List.all_eq_true] at hacc
        have hcell := hacc i (List.mem_range.mpr hi)
        simp only [beq_iff_eq] at hcell
        simp only [Part1.GRID_SIZE] at hx hy hb ⊢
        exact ⟨hx, by omega, hcell⟩
    · refine ⟨fun _ => ?_, fun h => by simp at h⟩
      simp only [Part1.canPlaceShip, if_true] at hacc
      by_cases hb : x + size > Part1.GRID_SIZE
      · rw [if_pos hb] at hacc
        exact absurd hacc (by simp)
      · rw [if_neg hb] at hacc
        rw [List.all_eq_true] at hacc
        have hcell := hacc i (List.mem_range.mpr hi)
        simp only [beq_iff_eq] at hcell
        simp only [Part1.GRID_SIZE] at hx hy hb ⊢
        exact ⟨by omega, hy, hcell⟩

/-- Witness for C4: a horizontal size-2 ship at (2,3) on the empty 10×10
buffer is accepted, and its first footprint cell is in bounds and empty. -/
theorem C4_witness :
    (2 < TestCode.GRID_SIZE ∧ 3 < TestCode.GRID_SIZE ∧
      TestCode.canPlaceShip TestCode.zeroBuf 2 3 2 true = true ∧ 0 < 2) ∧
    (2 + 0 < TestCode.GRID_SIZE ∧ 3 < TestCode.GRID_SIZE ∧
      TestCode.getCellState TestCode.zeroBuf (2 + 0) 3 = TestCode.CELL_EMPTY) :=
  ⟨⟨by decide, by decide, by decide, by decide⟩,
    ((C4_canPlaceShip_accepted_footprint_empty.1 TestCode.zeroBuf 2 3 2 true
      (by decide) (by decide) (by decide) 0 (by decide)).1 rfl)⟩

/-- Concrete state used by witnesses: 10×10 game with a single ship cell
at (2,3), cursor at (2,3), player's turn. -/
def demoTC : TestCode.TCState :=
  { playerGrid := TestCode.zeroBuf,
    arduinoGrid := TestCode.setCellState TestCode.zeroBuf 2 3 TestCode.CELL_SHIP,
    playerAttackGrid := TestCode.zeroBuf,
    arduinoAttackGrid := TestCode.zeroBuf,
    cursorX := 2, cursorY := 3,
    playerShipHorizontal := true, shipId := 5,
    gameState := TestCode.GamePhase.playerTurn,
    arduinoAttackMode := TestCode.AttackMode.hunt,
    lastHitX := 0, lastHitY := 0, targetIndex := 0,
    targetList := fun _ => (0, 0), targetListInitialized := false }

/-- C2: an attack at an in-bounds untried coordinate resolves against the
defender's ownership grid: on a ship cell it records `HIT` on the
attacker's attack grid and turns the defender's cell to `HIT`; otherwise
it records `MISS` (the test_code variant also writes `MISS` onto the
defender's cell, the serial-monitor variant leaves the defender's grid
untouched); no other cell of either grid changes, and the grids not
involved in the attack are untouched. -/
theorem C2_attack_resolution :
    (∀ st : TestCode.TCState,
      st.cursorX < TestCode.GRID_SIZE → st.cursorY < TestCode.GRID_SIZE →
      TestCode.getCellState st.playerAttackGrid st.cursorX st.cursorY
        = TestCode.CELL_EMPTY →
      (TestCode.getCellState st.arduinoGrid st.cursorX st.cursorY
          = TestCode.CELL_SHIP →
        (TestCode.playerAttack st).1 = TestCode.AttackResult.hit ∧
        TestCode.getCellState (TestCode.playerAttack st).2.playerAttackGrid
          st.cursorX st.cursorY = TestCode.CELL_HIT ∧
        TestCode.getCellState (TestCode.playerAttack st).2.arduinoGrid
          st.cursorX st.cursorY = TestCode.CELL_HIT) ∧
      (TestCode.getCellState st.arduinoGrid st.cursorX st.cursorY
          ≠ TestCode.CELL_SHIP →
        (TestCode.playerAttack st).1 = TestCode.AttackResult.miss ∧
        TestCode.getCellState (TestCode.playerAttack st).2.playerAttackGrid
          st.cursorX st.cursorY = TestCode.CELL_MISS ∧
        TestCode.getCellState (TestCode.playerAttack st).2.arduinoGrid
          st.cursorX st.cursorY = TestCode.CELL_MISS) ∧
      (∀ a b, a < TestCode.GRID_SIZE → b < TestCode.GRID_SIZE →
        (a, b) ≠ (st.cursorX, st.cursorY) →
        TestCode.getCellState (TestCode.playerAttack st).2.playerAttackGrid a b
          = TestCode.getCellState st.playerAttackGrid a b ∧
        TestCode.getCellState (TestCode.playerAttack st).2.arduinoGrid a b
          = TestCode.getCellState st.arduinoGrid a b) ∧
      (TestCode.playerAttack st).2.playerGrid = st.playerGrid ∧
      (TestCode.playerAttack st).2.arduinoAttackGrid = st.arduinoAttackGrid) ∧
    (∀ (pag : SerialMonitor.AtkGrid) (ag : SerialMonitor.OwnGrid) (x y : Nat),
      x < SerialMonitor.GRID_SIZE → y < SerialMonitor.GRID_SIZE →
      pag x y = SerialMonitor.ATTACK_UNTRIED →
      (ag x y > 0 →
        (SerialMonitor.playerAttack pag ag x y).1 = TestCode.AttackResult.hit ∧
        (SerialMonitor.playerAttack pag ag x y).2.1 x y = SerialMonitor.ATTACK_HIT ∧
        (SerialMonitor.playerAttack pag ag x y).2.2.1 x y = SerialMonitor.SHIP_HIT) ∧
      (¬ ag x y > 0 →
        (SerialMonitor.playerAttack pag ag x y).1 = TestCode.AttackResult.miss ∧
        (SerialMonitor.playerAttack pag ag x y).2.1 x y = SerialMonitor.ATTACK_MISS ∧
        (SerialMonitor.playerAttack pag ag x y).2.2.1 = ag) ∧
      (∀ a b, (a, b) ≠ (x, y) →
        (SerialMonitor.playerAttack pag ag x y).2.1 a b = pag a b ∧
        (SerialMonitor.playerAttack pag ag x y).2.2.1 a b = ag a b)) := by
  constructor
  · intro st hx hy huntried
    by_cases hship : TestCode.getCellState st.arduinoGrid st.cursorX st.cursorY
        = TestCode.CELL_SHIP
    · have hstep : TestCode.playerAttack st =
          (TestCode.AttackResult.hit,
            { st with
              playerAttackGrid := TestCode.setCellState st.playerAttackGrid
                st.cursorX st.cursorY TestCode.CELL_HIT,
              arduinoGrid := TestCode.setCellState st.arduinoGrid
                st.cursorX st.cursorY TestCode.CELL_HIT,
              gameState := if TestCode.countRemainingShips
                  (TestCode.setCellState st.arduinoGrid st.cursorX st.cursorY
                    TestCode.CELL_HIT) = 0
                then TestCode.GamePhase.gameOver else TestCode.GamePhase.arduinoTurn }) := by
        simp only [TestCode.playerAttack, if_pos huntried, if_pos hship]
      rw [hstep]
      refine ⟨fun _ => ⟨rfl, ?_, ?_⟩, fun h => absurd hship h,
        fun a b ha hb hne => ⟨?_, ?_⟩, rfl, rfl⟩
      · exact TestCode.getCellState_setCellState_same _ _ _ _ hx hy (by decide)
      · exact TestCode.getCellState_setCellState_same _ _ _ _ hx hy (by decide)
      · exact TestCode.getCellState_setCellState_ne _ _ _ _ _ _ hx hy (by decide) ha hb hne
      · exact TestCode.getCellState_setCellState_ne _ _ _ _ _ _ hx hy (by decide) ha hb hne
    · have hstep : TestCode.playerAttack st =
          (TestCode.AttackResult.miss,
            { st with
              playerAttackGrid := TestCode.setCellState st.playerAttackGrid
                st.cursorX st.cursorY TestCode.CELL_MISS,
              arduinoGrid := TestCode.setCellState st.arduinoGrid
                st.cursorX st.cursorY TestCode.CELL_MISS,
              gameState := if TestCode.countRemainingShips
                  (TestCode.setCellState st.arduinoGrid st.cursorX st.cursorY
                    TestCode.CELL_MISS) = 0
                then TestCode.GamePhase.gameOver else TestCode.GamePhase.arduinoTurn }) := by
        simp only [TestCode.playerAttack, if_pos huntried, if_neg hship]
      rw [hstep]
      refine ⟨fun h => absurd h hship, fun _ => ⟨rfl, ?_, ?_⟩,
        fun a b ha hb hne => ⟨?_, ?_⟩, rfl, rfl⟩
      · exact TestCode.getCellState_setCellState_same _ _ _ _ hx hy (by decide)
      · exact TestCode.getCellState_setCellState_same _ _ _ _ hx hy (by decide)
      · exact TestCode.getCellState_setCellState_ne _ _ _ _ _ _ hx hy (by decide) ha hb hne
      · exact TestCode.getCellState_setCellState_ne _ _ _ _ _ _ hx hy (by decide) ha hb hne
  · intro pag ag x y hx hy huntried
    by_cases hship : ag x y > 0
    · have hstep : SerialMonitor.playerAttack pag ag x y =
          (TestCode.AttackResult.hit,
            SerialMonitor.writeAtk pag x y SerialMonitor.ATTACK_HIT,
            SerialMonitor.writeOwn ag x y SerialMonitor.SHIP_HIT,
            if SerialMonitor.countRemainingShips
                (SerialMonitor.writeOwn ag x y SerialMonitor.SHIP_HIT) = 0
              then TestCode.GamePhase.gameOver else TestCode.GamePhase.arduinoTurn) := by
        simp only [SerialMonitor.playerAttack, if_pos huntried, if_pos hship]
      rw [hstep]
      refine ⟨fun _ => ⟨rfl, ?_, ?_⟩, fun h => absurd hship h, fun a b hne => ⟨?_, ?_⟩⟩
      · simp [SerialMonitor.writeAtk]
      · simp [SerialMonitor.writeOwn]
      · have hne2 : ¬ (a = x ∧ b = y) := fun h => hne (by simp [h.1, h.2])
        simp [SerialMonitor.writeAtk, hne2]
      · have hne2 : ¬ (a = x ∧ b = y) := fun h => hne (by simp [h.1, h.2])
        simp [SerialMonitor.writeOwn, hne2]
    · have hstep : SerialMonitor.playerAttack pag ag x y =
          (TestCode.AttackResult.miss,
            SerialMonitor.writeAtk pag x y SerialMonitor.ATTACK_MISS, ag,
            if SerialMonitor.countRemainingShips ag = 0
              then TestCode.GamePhase.gameOver else TestCode.GamePhase.arduinoTurn) := by
        simp only [SerialMonitor.playerAttack, if_pos huntried, if_neg hship]
      rw [hstep]
      refine ⟨fun h => absurd h hship, fun _ => ⟨rfl, ?_, rfl⟩, fun a b hne => ⟨?_, rfl⟩⟩
      · simp [SerialMonitor.writeAtk]
      · have hne2 : ¬ (a = x ∧ b = y) := fun h => hne (by simp [h.1, h.2])
        simp [SerialMonitor.writeAtk, hne2]

/-- Witness for C2: attacking the ship cell (2,3) of the demo state is a
hit. -/
theorem C2_witness :
    (demoTC.cursorX < TestCode.GRID_SIZE ∧ demoTC.cursorY < TestCode.GRID_SIZE ∧
      TestCode.getCellState demoTC.playerAttackGrid demoTC.cursorX demoTC.cursorY
        = TestCode.CELL_EMPTY ∧
      TestCode.getCellState demoTC.arduinoGrid demoTC.cursorX demoTC.cursorY
        = TestCode.CELL_SHIP) ∧
    (TestCode.playerAttack demoTC).1 = TestCode.AttackResult.hit :=
  ⟨⟨by decide, by decide, by decide, by decide⟩,
    ((C2_attack_resolution.1 demoTC (by decide) (by decide) (by decide)).1 (by decide)).1⟩

namespace TestCode

/-- An attack at a non-untried cell is rejected with no state change. -/
theorem playerAttack_rejects (st : TCState)
    (h : getCellState st.playerAttackGrid st.cursorX st.cursorY ≠ CELL_EMPTY) :
    playerAttack st = (AttackResult.rejected, st) := by
  simp only [playerAttack, if_neg h]

end TestCode

namespace SerialMonitor

/-- An attack at a non-untried cell is rejected with no state change. -/
theorem playerAttack_rejected (pag : AtkGrid) (ag : OwnGrid) (x y : Nat)
    (h : pag x y ≠ ATTACK_UNTRIED) :
    playerAttack pag ag x y
      = (TestCode.AttackResult.rejected, pag, ag, TestCode.GamePhase.playerTurn) := by
  simp only [playerAttack, if_neg h]

end SerialMonitor

/-- C3: an attack at a coordinate whose attack-grid cell already records
`HIT` or `MISS` is rejected and leaves the whole state unchanged; an
attack at an untried coordinate resolves to `HIT` or `MISS` exactly once,
and repeating it on the resulting state is rejected with no state change.
Proved for both the test_code and the serial-monitor variant. -/
theorem C3_attack_rejection_idempotent :
    (∀ st : TestCode.TCState,
      (TestCode.getCellState st.playerAttackGrid st.cursorX st.cursorY
          = TestCode.CELL_HIT ∨
        TestCode.getCellState st.playerAttackGrid st.cursorX st.cursorY
          = TestCode.CELL_MISS) →
      TestCode.playerAttack st = (TestCode.AttackResult.rejected, st)) ∧
    (∀ st : TestCode.TCState,
      st.cursorX < TestCode.GRID_SIZE → st.cursorY < TestCode.GRID_SIZE →
      TestCode.getCellState st.playerAttackGrid st.cursorX st.cursorY
        = TestCode.CELL_EMPTY →
      ((TestCode.playerAttack st).1 = TestCode.AttackResult.hit ∨
        (TestCode.playerAttack st).1 = TestCode.AttackResult.miss) ∧
      TestCode.playerAttack (TestCode.playerAttack st).2
        = (TestCode.AttackResult.rejected, (TestCode.playerAttack st).2)) ∧
    (∀ (pag : SerialMonitor.AtkGrid) (ag : SerialMonitor.OwnGrid) (x y : Nat),
      (pag x y = SerialMonitor.ATTACK_HIT ∨ pag x y = SerialMonitor.ATTACK_MISS) →
      SerialMonitor.playerAttack pag ag x y
        = (TestCode.AttackResult.rejected, pag, ag, TestCode.GamePhase.playerTurn)) ∧
    (∀ (pag : SerialMonitor.AtkGrid) (ag : SerialMonitor.OwnGrid) (x y : Nat),
      pag x y = SerialMonitor.ATTACK_UNTRIED →
      ((SerialMonitor.playerAttack pag ag x y).1 = TestCode.AttackResult.hit ∨
        (SerialMonitor.playerAttack pag ag x y).1 = TestCode.AttackResult.miss) ∧
      SerialMonitor.playerAttack (SerialMonitor.playerAttack pag ag x y).2.1
          (SerialMonitor.playerAttack pag ag x y).2.2.1 x y
        = (TestCode.AttackResult.rejected,
            (SerialMonitor.playerAttack pag ag x y).2.1,
            (SerialMonitor.playerAttack pag ag x y).2.2.1,
            TestCode.GamePhase.playerTurn)) := by
  refine ⟨?_, ?_, ?_, ?_⟩
  · intro st h
    apply TestCode.playerAttack_rejects
    rcases h with h | h <;> rw [h] <;> decide
  · intro st hx hy huntried
    by_cases hship : TestCode.getCellState st.arduinoGrid st.cursorX st.cursorY
        = TestCode.CELL_SHIP
    · have hres : (TestCode.playerAttack st).1 = TestCode.AttackResult.hit := by
        simp only [TestCode.playerAttack, if_pos huntried, if_pos hship]
      have hgrid : (TestCode.playerAttack st).2.playerAttackGrid
          = TestCode.setCellState st.playerAttackGrid st.cursorX st.cursorY
            TestCode.CELL_HIT := by
        simp only [TestCode.playerAttack, if_pos huntried, if_pos hship]
      have hcx : (TestCode.playerAttack st).2.cursorX = st.cursorX := by
        simp only [TestCode.playerAttack, if_pos huntried, if_pos hship]
      have hcy : (TestCode.playerAttack st).2.cursorY = st.cursorY := by
        simp only [TestCode.playerAttack, if_pos huntried, if_pos hship]
      refine ⟨Or.inl hres, ?_⟩
      apply TestCode.playerAttack_rejects
      rw [hgrid, hcx, hcy,
        TestCode.getCellState_setCellState_same _ _ _ _ hx hy (by decide)]
      decide
    · have hres : (TestCode.playerAttack st).1 = TestCode.AttackResult.miss := by
        simp only [TestCode.playerAttack, if_pos huntried, if_neg hship]
      have hgrid : (TestCode.playerAttack st).2.playerAttackGrid
          = TestCode.setCellState st.playerAttackGrid st.cursorX st.cursorY
            TestCode.CELL_MISS := by
        simp only [TestCode.playerAttack, if_pos huntried, if_neg hship]
      have hcx : (TestCode.playerAttack st).2.cursorX = st.cursorX := by
        simp only [TestCode.playerAttack, if_pos huntried, if_neg hship]
      have hcy : (TestCode.playerAttack st).2.cursorY = st.cursorY := by
        simp only [TestCode.playerAttack, if_pos huntried, if_neg hship]
      refine ⟨Or.inr hres, ?_⟩
      apply TestCode.playerAttack_rejects
      rw [hgrid, hcx, hcy,
        TestCode.getCellState_setCellState_same _ _ _ _ hx hy (by decide)]
      decide
  · intro pag ag x y h
    apply SerialMonitor.playerAttack_rejected
    rcases h with h | h <;> rw [h] <;> decide
  · intro pag ag x y huntried
    by_cases hship : ag x y > 0
    · have hres : (SerialMonitor.playerAttack pag ag x y).1
          = TestCode.AttackResult.hit := by
        simp only [SerialMonitor.playerAttack, if_pos huntried, if_pos hship]
      have hgrid : (SerialMonitor.playerAttack pag ag x y).2.1
          = SerialMonitor.writeAtk pag x y SerialMonitor.ATTACK_HIT := by
        simp only [SerialMonitor.playerAttack, if_pos huntried, if_pos hship]
      refine ⟨Or.inl hres, ?_⟩
      apply SerialMonitor.playerAttack_rejected
      rw [hgrid]
      simp [SerialMonitor.writeAtk, SerialMonitor.ATTACK_HIT,
        SerialMonitor.ATTACK_UNTRIED]
    · have hres : (SerialMonitor.playerAttack pag ag x y).1
          = TestCode.AttackResult.miss := by
        simp only [SerialMonitor.playerAttack, if_pos huntried, if_neg hship]
      have hgrid : (SerialMonitor.playerAttack pag ag x y).2.1
          = SerialMonitor.writeAtk pag x y SerialMonitor.ATTACK_MISS := by
        simp only [SerialMonitor.playerAttack, if_pos huntried, if_neg hship]
      refine ⟨Or.inr hres, ?_⟩
      apply SerialMonitor.playerAttack_rejected
      rw [hgrid]
      simp [SerialMonitor.writeAtk, SerialMonitor.ATTACK_MISS,
        SerialMonitor.ATTACK_UNTRIED]

/-- Witness for C3: in the demo state the first attack at (2,3) hits, and
the immediate repeat is rejected without a state change. -/
theorem C3_witness :
    (demoTC.cursorX < TestCode.GRID_SIZE ∧ demoTC.cursorY < TestCode.GRID_SIZE ∧
      TestCode.getCellState demoTC.playerAttackGrid demoTC.cursorX demoTC.cursorY
        = TestCode.CELL_EMPTY) ∧
    ((TestCode.playerAttack demoTC).1 = TestCode.AttackResult.hit ∨
      (TestCode.playerAttack demoTC).1 = TestCode.AttackResult.miss) ∧
    TestCode.playerAttack (TestCode.playerAttack demoTC).2
      = (TestCode.AttackResult.rejected, (TestCode.playerAttack demoTC).2) :=
  ⟨⟨by decide, by decide, by decide⟩,
    C3_attack_rejection_idempotent.2.1 demoTC (by decide) (by decide) (by decide)⟩

namespace SerialMonitor

/-- Unpacking of a successful per-cell check of the strict validator: the
footprint cell is empty and every in-bounds cell at offset at most 1 in
each axis (the cell itself and all its 8-neighbors) is empty. -/
theorem cellOK_spec (g : OwnGrid) (xi yi : Nat)
    (h : cellOK g xi yi = true) :
    g xi yi = EMPTY ∧
    (∀ dx dy : Int, -1 ≤ dx → dx ≤ 1 → -1 ≤ dy → dy ≤ 1 →
      ∀ nx ny : Nat, (nx : Int) = (xi : Int) + dx → (ny : Int) = (yi : Int) + dy →
        nx < GRID_SIZE → ny < GRID_SIZE → g nx ny = EMPTY) := by
  simp only [cellOK, Bool.and_eq_true, beq_iff_eq] at h
  obtain ⟨hself, hall⟩ := h
  refine ⟨hself, ?_⟩
  intro dx dy hdx1 hdx2 hdy1 hdy2
  rw [List.all_eq_true] at hall
  have hdx : dx = -1 ∨ dx = 0 ∨ dx = 1 := by omega
  have hdy : dy = -1 ∨ dy = 0 ∨ dy = 1 := by omega
  have hmem : (dx, dy) ∈ neighborOffsets := by
    rcases hdx with rfl | rfl | rfl <;> rcases hdy with rfl | rfl | rfl <;>
      simp [neighborOffsets]
  have hclear := hall (dx, dy) hmem
  intro nx ny hnx hny hnxb hnyb
  simp only [neighborClear, Bool.not_eq_true', Bool.and_eq_false_iff,
    decide_eq_false_iff_not, not_le, not_lt, Bool.not_eq_false', beq_iff_eq,
    Bool.and_eq_true, decide_eq_true_eq] at hclear
  rcases hclear with ((((h1 | h2) | h3) | h4) | h5) | h6
  · omega
  · simp only [GRID_SIZE] at h2 hnxb
    omega
  · omega
  · simp only [GRID_SIZE] at h4 hnyb
    omega
  · rw [← hnx, ← hny, Int.toNat_natCast, Int.toNat_natCast] at h5
    exact h5
  · have hxx : nx = xi := by omega
    have hyy : ny = yi := by omega
    rw [hxx, hyy]
    exact hself

end SerialMonitor

/-- C5: for every placement accepted by the strict validator of
battle_ship_serial_monitor.ino, every footprint cell was `EMPTY` and every
in-bounds cell 8-adjacent to a footprint cell (offset at most 1 in each
axis) is `EMPTY` in the pre-placement grid — so no cell 8-adjacent to the
footprint holds another ship, which is the contrapositive of the claim's
rejection condition (a pre-placement non-empty cell is never part of the
ship being placed, since the ship has not been written yet). -/
theorem C5_strict_validator_adjacency_buffer :
    ∀ (g : SerialMonitor.OwnGrid) (x y size : Nat) (horizontal : Bool),
      SerialMonitor.canPlaceShip g x y size horizontal = true →
      ∀ i, i < size →
        (horizontal = true →
          g (x + i) y = SerialMonitor.EMPTY ∧
          (∀ dx dy : Int, -1 ≤ dx → dx ≤ 1 → -1 ≤ dy → dy ≤ 1 →
            ∀ nx ny : Nat,
              (nx : Int) = ((x + i : Nat) : Int) + dx →
              (ny : Int) = (y : Int) + dy →
              nx < SerialMonitor.GRID_SIZE → ny < SerialMonitor.GRID_SIZE →
              g nx ny = SerialMonitor.EMPTY)) ∧
        (horizontal = false →
          g x (y + i) = SerialMonitor.EMPTY ∧
          (∀ dx dy : Int, -1 ≤ dx → dx ≤ 1 → -1 ≤ dy → dy ≤ 1 →
            ∀ nx ny : Nat,
              (nx : Int) = (x : Int) + dx →
              (ny : Int) = ((y + i : Nat) : Int) + dy →
              nx < SerialMonitor.GRID_SIZE → ny < SerialMonitor.GRID_SIZE →
              g nx ny = SerialMonitor.EMPTY)) := by
  intro g x y size horizontal hacc i hi
  cases horizontal
  · refine ⟨fun h => by simp at h, fun _ => ?_⟩
    simp only [SerialMonitor.canPlaceShip, if_false, Bool.false_eq_true] at hacc
    by_cases hb : y + size > SerialMonitor.GRID_SIZE
    · rw [if_pos hb] at hacc
      exact absurd hacc (by simp)
    · rw [if_neg hb] at hacc
      rw [List.all_eq_true] at hacc
      exact SerialMonitor.cellOK_spec g x (y + i) (hacc i (List.mem_range.mpr hi))
  · refine ⟨fun _ => ?_, fun h => by simp at h⟩
    simp only [SerialMonitor.canPlaceShip, if_true] at hacc
    by_cases hb : x + size > SerialMonitor.GRID_SIZE
    · rw [if_pos hb] at hacc
      exact absurd hacc (by simp)
    · rw [if_neg hb] at hacc
      rw [List.all_eq_true] at hacc
      exact SerialMonitor.cellOK_spec g (x + i) y (hacc i (List.mem_range.mpr hi))

/-- Witness for C5: a horizontal size-2 ship at (2,3) on the empty 12×12
grid passes the strict validator, and its first footprint cell is empty. -/
theorem C5_witness :
    (SerialMonitor.canPlaceShip SerialMonitor.emptyOwn 2 3 2 true = true ∧
      0 < 2 ∧ (true : Bool) = true) ∧
    SerialMonitor.emptyOwn (2 + 0) 3 = SerialMonitor.EMPTY :=
  ⟨⟨by decide, by decide, rfl⟩,
    ((C5_strict_validator_adjacency_buffer SerialMonitor.emptyOwn 2 3 2 true
      (by decide) 0 (by decide)).1 rfl).1⟩

namespace TestCode

/-- Resolving an attack at an in-bounds untried cell strictly shrinks the
set of untried cells of the attack grid. -/
theorem untriedCount_set_lt (g : Buf) (x y v : Nat)
    (hx : x < GRID_SIZE) (hy : y < GRID_SIZE) (hv : v < 4) (hvne : v ≠ CELL_EMPTY)
    (hcell : getCellState g x y = CELL_EMPTY) :
    untriedCount (setCellState g x y v) < untriedCount g := by
  unfold untriedCount
  have hmem : ((x, y) : Nat × Nat) ∈
      (Finset.range GRID_SIZE ×ˢ Finset.range GRID_SIZE).filter
        (fun q : Nat × Nat => getCellState g q.1 q.2 = CELL_EMPTY) := by
    rw [Finset.mem_filter, Finset.mem_product, Finset.mem_range, Finset.mem_range]
    exact ⟨⟨hx, hy⟩, hcell⟩
  have hsub : (Finset.range GRID_SIZE ×ˢ Finset.range GRID_SIZE).filter
        (fun q : Nat × Nat => getCellState (setCellState g x y v) q.1 q.2 = CELL_EMPTY)
      ⊆ ((Finset.range GRID_SIZE ×ˢ Finset.range GRID_SIZE).filter
        (fun q : Nat × Nat => getCellState g q.1 q.2 = CELL_EMPTY)).erase (x, y) := by
    intro q hq
    rw [Finset.mem_filter, Finset.mem_product, Finset.mem_range, Finset.mem_range] at hq
    obtain ⟨⟨hq1, hq2⟩, hqcell⟩ := hq
    have hqne : q ≠ (x, y) := by
      intro h
      rw [h] at hqcell
      rw [getCellState_setCellState_same g x y v hx hy hv] at hqcell
      exact hvne hqcell
    rw [Finset.mem_erase]
    refine ⟨hqne, ?_⟩
    rw [Finset.mem_filter, Finset.mem_product, Finset.mem_range, Finset.mem_range]
    refine ⟨⟨hq1, hq2⟩, ?_⟩
    have : (q.1, q.2) ≠ (x, y) := by
      intro h
      exact hqne (by rw [← h])
    rw [← getCellState_setCellState_ne g x y v q.1 q.2 hx hy hv hq1 hq2 this]
    exact hqcell
  calc ((Finset.range GRID_SIZE ×ˢ Finset.range GRID_SIZE).filter
        (fun q : Nat × Nat => getCellState (setCellState g x y v) q.1 q.2
          = CELL_EMPTY)).card
      ≤ (((Finset.range GRID_SIZE ×ˢ Finset.range GRID_SIZE).filter
        (fun q : Nat × Nat => getCellState g q.1 q.2 = CELL_EMPTY)).erase (x, y)).card :=
        Finset.card_le_card hsub
    _ < ((Finset.range GRID_SIZE ×ˢ Finset.range GRID_SIZE).filter
        (fun q : Nat × Nat => getCellState g q.1 q.2 = CELL_EMPTY)).card :=
        Finset.card_erase_lt_of_mem hmem

/-- The win check only rewrites the phase. -/
theorem arduinoPhase_fields (s : TCState) :
    (arduinoPhase s).playerGrid = s.playerGrid ∧
    (arduinoPhase s).arduinoAttackGrid = s.arduinoAttackGrid := by
  unfold arduinoPhase
  by_cases h : countRemainingShips s.playerGrid = 0
  · rw [if_pos h]
    exact ⟨rfl, rfl⟩
  · rw [if_neg h]
    exact ⟨rfl, rfl⟩

/-- The phase after the win check is `GAME_OVER` exactly when no ship cell
remains on the defender's grid, else `PLAYER_TURN`. -/
theorem arduinoPhase_gameState (s : TCState) :
    (arduinoPhase s).gameState =
      (if countRemainingShips (arduinoPhase s).playerGrid = 0
        then GamePhase.gameOver else GamePhase.playerTurn) := by
  rw [(arduinoPhase_fields s).1]
  unfold arduinoPhase
  by_cases h : countRemainingShips s.playerGrid = 0
  · rw [if_pos h, if_pos h]
  · rw [if_neg h, if_neg h]

/-- The attack resolution writes a non-empty state (`CELL_HIT` or
`CELL_MISS`) to the attacked cell of the AI's attack grid, and its result
is `hit` or `miss`. -/
theorem resolveAt_shape (st : TCState) (x y : Nat) :
    ∃ v, v < 4 ∧ v ≠ CELL_EMPTY ∧
      (resolveAt st x y).2.arduinoAttackGrid = setCellState st.arduinoAttackGrid x y v ∧
      ((resolveAt st x y).1 = AttackResult.hit ∨ (resolveAt st x y).1 = AttackResult.miss) := by
  unfold resolveAt
  by_cases h : getCellState st.playerGrid x y = CELL_SHIP
  · refine ⟨CELL_HIT, by decide, by decide, ?_, ?_⟩ <;> rw [if_pos h]
    · exact Or.inl rfl
  · refine ⟨CELL_MISS, by decide, by decide, ?_, ?_⟩ <;> rw [if_neg h]
    · exact Or.inr rfl

/-- When the oracle contains an untried cell, the hunt loop terminates at
the first such sample and resolves there. -/
theorem huntStep_some (st : TCState) (rng : List (Nat × Nat))
    (h : ∃ q ∈ rng, getCellState st.arduinoAttackGrid q.1 q.2 = CELL_EMPTY) :
    ∃ p, rng.find? (fun q => getCellState st.arduinoAttackGrid q.1 q.2
        == CELL_EMPTY) = some p ∧
      huntStep st rng = some (p, resolveAt st p.1 p.2) ∧
      p ∈ rng ∧ getCellState st.arduinoAttackGrid p.1 p.2 = CELL_EMPTY := by
  obtain ⟨q, hqmem, hquntried⟩ := h
  have hsome : (rng.find? (fun q => getCellState st.arduinoAttackGrid q.1 q.2
      == CELL_EMPTY)).isSome := by
    rw [List.find?_isSome]
    exact ⟨q, hqmem, by rw [hquntried]; decide⟩
  obtain ⟨p, hp⟩ := Option.isSome_iff_exists.mp hsome
  refine ⟨p, hp, ?_, List.mem_of_find?_eq_some hp, ?_⟩
  · unfold huntStep
    rw [hp]
  · have := List.find?_some hp
    rwa [beq_iff_eq] at this

/-- Any cell produced by the target-queue scan is a slot of the array and
is untried. -/
theorem scanAux_some (tl : Fin 4 → Nat × Nat) (ag : Buf) :
    ∀ r i p j, scanAux tl ag r i = some (p, j) →
      ∃ k : Fin 4, p = tl k ∧ getCellState ag p.1 p.2 = CELL_EMPTY := by
  intro r
  induction r with
  | zero =>
    intro i p j h
    simp [scanAux] at h
  | succ r ih =>
    intro i p j h
    simp only [scanAux] at h
    split at h
    · split at h
      · rename_i hlt hu
        refine ⟨⟨i, hlt⟩, ?_, ?_⟩
        · injection h with h1
          injection h1 with h2 h3
          exact h2.symm
        · injection h with h1
          injection h1 with h2 h3
          rw [h2] at hu
          exact hu
      · exact ih _ _ _ h
    · simp at h

end TestCode

namespace TestCode

/-- All slots of the rebuilt target array are in bounds when the last hit
and the stale slots are. -/
theorem buildTargetArray_bounds (hx hy : Nat) (old : Fin 4 → Nat × Nat)
    (hhx : hx < GRID_SIZE) (hhy : hy < GRID_SIZE)
    (hold : ∀ i, (old i).1 < GRID_SIZE ∧ (old i).2 < GRID_SIZE) :
    ∀ i, (buildTargetArray hx hy old i).1 < GRID_SIZE ∧
      (buildTargetArray hx hy old i).2 < GRID_SIZE := by
  intro i
  have hment : ∀ p ∈ ((if hx > 0 then [(hx - 1, hy)] else []) ++
      (if hx < GRID_SIZE - 1 then [(hx + 1, hy)] else []) ++
      (if hy > 0 then [(hx, hy - 1)] else []) ++
      (if hy < GRID_SIZE - 1 then [(hx, hy + 1)] else [])),
      p.1 < GRID_SIZE ∧ p.2 < GRID_SIZE := by
    intro p hp
    simp only [GRID_SIZE] at *
    simp only [List.mem_append] at hp
    rcases hp with ((hp | hp) | hp) | hp <;> split at hp <;> simp at hp <;>
      (subst hp; constructor <;> (simp <;> omega))
  simp only [buildTargetArray]
  by_cases h : (i : Nat) < ((if hx > 0 then [(hx - 1, hy)] else []) ++
      (if hx < GRID_SIZE - 1 then [(hx + 1, hy)] else []) ++
      (if hy > 0 then [(hx, hy - 1)] else []) ++
      (if hy < GRID_SIZE - 1 then [(hx, hy + 1)] else [])).length
  · rw [dif_pos h]
    exact hment _ (List.get_mem _ _ _)
  · rw [dif_neg h]
    exact hold i

/-- At an interior last hit all four conditions of the initialization
block hold, so the four slots are exactly the left, right, up and down
neighbors, in that order. -/
theorem buildTargetArray_interior (hx hy : Nat) (old : Fin 4 → Nat × Nat)
    (h1 : 0 < hx) (h2 : hx < GRID_SIZE - 1) (h3 : 0 < hy) (h4 : hy < GRID_SIZE - 1) :
    buildTargetArray hx hy old 0 = (hx - 1, hy) ∧
    buildTargetArray hx hy old 1 = (hx + 1, hy) ∧
    buildTargetArray hx hy old 2 = (hx, hy - 1) ∧
    buildTargetArray hx hy old 3 = (hx, hy + 1) := by
  simp only [buildTargetArray]
  rw [if_pos h1, if_pos h2, if_pos h3, if_pos h4]
  exact ⟨rfl, rfl, rfl, rfl⟩

/-- The scan from index 0 examines the four slots in order and picks the
first untried one. -/
theorem scanTargets_zero_eq (tl : Fin 4 → Nat × Nat) (ag : Buf) :
    scanTargets tl ag 0 =
      (if getCellState ag (tl 0).1 (tl 0).2 = CELL_EMPTY then some (tl 0, 1)
      else if getCellState ag (tl 1).1 (tl 1).2 = CELL_EMPTY then some (tl 1, 2)
      else if getCellState ag (tl 2).1 (tl 2).2 = CELL_EMPTY then some (tl 2, 3)
      else if getCellState ag (tl 3).1 (tl 3).2 = CELL_EMPTY then some (tl 3, 4)
      else none) := by
  have e1 : scanTargets tl ag 0 =
      (if getCellState ag (tl 0).1 (tl 0).2 = CELL_EMPTY then some (tl 0, 1)
      else scanAux tl ag 3 1) := rfl
  have e2 : scanAux tl ag 3 1 =
      (if getCellState ag (tl 1).1 (tl 1).2 = CELL_EMPTY then some (tl 1, 2)
      else scanAux tl ag 2 2) := rfl
  have e3 : scanAux tl ag 2 2 =
      (if getCellState ag (tl 2).1 (tl 2).2 = CELL_EMPTY then some (tl 2, 3)
      else scanAux tl ag 1 3) := rfl
  have e4 : scanAux tl ag 1 3 =
      (if getCellState ag (tl 3).1 (tl 3).2 = CELL_EMPTY then some (tl 3, 4)
      else none) := rfl
  rw [e1, e2, e3, e4]

end TestCode

/-- C8: after every resolved attack the win check runs on the defender's
ownership grid.  A resolved player attack sets the phase to `GAME_OVER`
when `countRemainingShips` on the (updated) Arduino grid is zero and to
`ARDUINO_TURN` otherwise; a resolved Arduino attack sets the phase to
`GAME_OVER` when `countRemainingShips` on the (updated) player grid is
zero and to `PLAYER_TURN` otherwise. -/
theorem C8_win_check_after_attack :
    (∀ st : TestCode.TCState,
      TestCode.getCellState st.playerAttackGrid st.cursorX st.cursorY
        = TestCode.CELL_EMPTY →
      (TestCode.playerAttack st).2.gameState =
        (if TestCode.countRemainingShips (TestCode.playerAttack st).2.arduinoGrid = 0
          then TestCode.GamePhase.gameOver else TestCode.GamePhase.arduinoTurn)) ∧
    (∀ (st : TestCode.TCState) (rng : List (Nat × Nat)) p r st',
      TestCode.arduinoAttack st rng = some (p, r, st') →
      st'.gameState =
        (if TestCode.countRemainingShips st'.playerGrid = 0
          then TestCode.GamePhase.gameOver else TestCode.GamePhase.playerTurn)) := by
  constructor
  · intro st huntried
    by_cases hship : TestCode.getCellState st.arduinoGrid st.cursorX st.cursorY
        = TestCode.CELL_SHIP
    · simp only [TestCode.playerAttack, if_pos huntried, if_pos hship]
    · simp only [TestCode.playerAttack, if_pos huntried, if_neg hship]
  · intro st rng p r st' heq
    cases hmode : st.arduinoAttackMode
    · rw [TestCode.arduinoAttack, hmode] at heq
      rw [Option.map_eq_some'] at heq
      obtain ⟨q, hq, hfq⟩ := heq
      simp only [Prod.mk.injEq] at hfq
      rw [← hfq.2.2]
      exact TestCode.arduinoPhase_gameState _
    · simp only [TestCode.arduinoAttack, hmode] at heq
      split at heq
      · simp only [Option.some.injEq, Prod.mk.injEq] at heq
        rw [← heq.2.2]
        exact TestCode.arduinoPhase_gameState _
      · rw [Option.map_eq_some'] at heq
        obtain ⟨q, hq, hfq⟩ := heq
        simp only [Prod.mk.injEq] at hfq
        rw [← hfq.2.2]
        exact TestCode.arduinoPhase_gameState _

/-- C7: whenever the randomness oracle eventually proposes an untried cell
(in particular whenever rejection sampling is fair and some cell is
untried), a single `arduinoAttack` call returns a result: it resolves
exactly one attack, at an in-bounds previously-untried cell, the result is
`hit` or `miss` (never nothing), the untried-cell set strictly shrinks,
and when the target queue is exhausted with no untried candidate the call
reverts to hunt mode and resolves the hunt-mode attack within the same
call (the resolved cell is the hunt pick). -/
theorem C7_arduinoAttack_one_resolution (st : TestCode.TCState)
    (rng : List (Nat × Nat))
    (hrngb : ∀ q ∈ rng, q.1 < TestCode.GRID_SIZE ∧ q.2 < TestCode.GRID_SIZE)
    (hrngu : ∃ q ∈ rng, TestCode.getCellState st.arduinoAttackGrid q.1 q.2
      = TestCode.CELL_EMPTY)
    (hlist : ∀ i, (st.targetList i).1 < TestCode.GRID_SIZE ∧
      (st.targetList i).2 < TestCode.GRID_SIZE)
    (hlast : st.lastHitX < TestCode.GRID_SIZE ∧ st.lastHitY < TestCode.GRID_SIZE) :
    ∃ p r st', TestCode.arduinoAttack st rng = some (p, r, st') ∧
      (r = TestCode.AttackResult.hit ∨ r = TestCode.AttackResult.miss) ∧
      p.1 < TestCode.GRID_SIZE ∧ p.2 < TestCode.GRID_SIZE ∧
      TestCode.getCellState st.arduinoAttackGrid p.1 p.2 = TestCode.CELL_EMPTY ∧
      TestCode.untriedCount st'.arduinoAttackGrid
        < TestCode.untriedCount st.arduinoAttackGrid ∧
      (st.arduinoAttackMode = TestCode.AttackMode.target →
        TestCode.scanTargets
          (if st.targetListInitialized then st.targetList
            else TestCode.buildTargetArray st.lastHitX st.lastHitY st.targetList)
          st.arduinoAttackGrid
          (if st.targetListInitialized then st.targetIndex else 0) = none →
        rng.find? (fun q => TestCode.getCellState st.arduinoAttackGrid q.1 q.2
          == TestCode.CELL_EMPTY) = some p) := by
  cases hmode : st.arduinoAttackMode
  · obtain ⟨p, hfind, hhs, hpmem, hpuntried⟩ := TestCode.huntStep_some st rng (by exact hrngu)
    obtain ⟨v, hv4, hvne, hgrid, hres⟩ := TestCode.resolveAt_shape st p.1 p.2
    have hpb := hrngb p hpmem
    refine ⟨p, (TestCode.resolveAt st p.1 p.2).1,
      TestCode.arduinoPhase (TestCode.resolveAt st p.1 p.2).2, ?_, hres,
      hpb.1, hpb.2, hpuntried, ?_, ?_⟩
    · rw [TestCode.arduinoAttack, hmode, hhs]
      rfl
    · rw [(TestCode.arduinoPhase_fields _).2, hgrid]
      exact TestCode.untriedCount_set_lt _ _ _ _ hpb.1 hpb.2 hv4 hvne hpuntried
    · intro htm
      simp [hmode] at htm
  · by_cases hinit : st.targetListInitialized = true
    · rcases hscan : TestCode.scanTargets st.targetList st.arduinoAttackGrid
          st.targetIndex with _ | ⟨p0, j⟩
      · -- queue exhausted: fall back to hunt within the same call
        obtain ⟨p, hfind, hhs, hpmem, hpuntried⟩ :=
          TestCode.huntStep_some
            { st with
              arduinoAttackMode := TestCode.AttackMode.hunt,
              targetIndex := 4 } rng (by exact hrngu)
        obtain ⟨v, hv4, hvne, hgrid, hres⟩ :=
          TestCode.resolveAt_shape
            { st with
              arduinoAttackMode := TestCode.AttackMode.hunt,
              targetIndex := 4 } p.1 p.2
        have hpb := hrngb p hpmem
        refine ⟨p, _, TestCode.arduinoPhase (TestCode.resolveAt
          { st with
            arduinoAttackMode := TestCode.AttackMode.hunt,
            targetIndex := 4 } p.1 p.2).2, ?_, hres, hpb.1, hpb.2, hpuntried, ?_, ?_⟩
        · simp only [TestCode.arduinoAttack, hmode, hinit, if_true]
          rw [hscan]
          rw [hinit] at hhs
          exact Option.map_eq_some'.mpr ⟨_, hhs, rfl⟩
        · rw [(TestCode.arduinoPhase_fields _).2, hgrid]
          exact TestCode.untriedCount_set_lt _ _ _ _ hpb.1 hpb.2 hv4 hvne hpuntried
        · intro _ _
          exact hfind
      · -- a queue slot is untried: it is consumed in order
        obtain ⟨k, hk, hkuntried⟩ :=
          TestCode.scanAux_some st.targetList st.arduinoAttackGrid
            (4 - st.targetIndex) st.targetIndex p0 j hscan
        obtain ⟨v, hv4, hvne, hgrid, hres⟩ :=
          TestCode.resolveAt_shape { st with targetIndex := j } p0.1 p0.2
        have hpb : p0.1 < TestCode.GRID_SIZE ∧ p0.2 < TestCode.GRID_SIZE := by
          rw [hk]
          exact hlist k
        refine ⟨p0, _, TestCode.arduinoPhase (TestCode.resolveAt
          { st with
            targetIndex := j } p0.1 p0.2).2, ?_, hres,
          hpb.1, hpb.2, hkuntried, ?_, ?_⟩
        · simp only [TestCode.arduinoAttack, hmode, hinit, if_true]
          rw [hscan]
        · rw [(TestCode.arduinoPhase_fields _).2, hgrid]
          exact TestCode.untriedCount_set_lt _ _ _ _ hpb.1 hpb.2 hv4 hvne hkuntried
        · intro _ hscannone
          rw [if_pos hinit, if_pos hinit] at hscannone
          rw [hscan] at hscannone
          simp at hscannone
    · have hinitf : st.targetListInitialized = false := by
        rwa [Bool.not_eq_true] at hinit
      rcases hscan : TestCode.scanTargets
          (TestCode.buildTargetArray st.lastHitX st.lastHitY st.targetList)
          st.arduinoAttackGrid 0 with _ | ⟨p0, j⟩
      · obtain ⟨p, hfind, hhs, hpmem, hpuntried⟩ :=
          TestCode.huntStep_some
            { st with
              targetIndex := 4,
              targetList := TestCode.buildTargetArray st.lastHitX st.lastHitY
                st.targetList,
              targetListInitialized := true,
              arduinoAttackMode := TestCode.AttackMode.hunt } rng (by exact hrngu)
        obtain ⟨v, hv4, hvne, hgrid, hres⟩ :=
          TestCode.resolveAt_shape
            { st with
              targetIndex := 4,
              targetList := TestCode.buildTargetArray st.lastHitX st.lastHitY
                st.targetList,
              targetListInitialized := true,
              arduinoAttackMode := TestCode.AttackMode.hunt } p.1 p.2
        have hpb := hrngb p hpmem
        refine ⟨p, _, TestCode.arduinoPhase (TestCode.resolveAt
          { st with
            targetIndex := 4,
            targetList := TestCode.buildTargetArray st.lastHitX st.lastHitY
              st.targetList,
            targetListInitialized := true,
            arduinoAttackMode := TestCode.AttackMode.hunt } p.1 p.2).2,
          ?_, hres, hpb.1, hpb.2, hpuntried, ?_, ?_⟩
        · simp only [TestCode.arduinoAttack, hmode, hinitf, Bool.false_eq_true,
            if_false]
          rw [hscan]
          exact Option.map_eq_some'.mpr ⟨_, hhs, rfl⟩
        · rw [(TestCode.arduinoPhase_fields _).2, hgrid]
          exact TestCode.untriedCount_set_lt _ _ _ _ hpb.1 hpb.2 hv4 hvne hpuntried
        · intro _ _
          exact hfind
      · obtain ⟨k, hk, hkuntried⟩ :=
          TestCode.scanAux_some
            (TestCode.buildTargetArray st.lastHitX st.lastHitY st.targetList)
            st.arduinoAttackGrid 4 0 p0 j hscan
        obtain ⟨v, hv4, hvne, hgrid, hres⟩ :=
          TestCode.resolveAt_shape
            { st with
              targetIndex := j,
              targetList := TestCode.buildTargetArray st.lastHitX st.lastHitY
                st.targetList,
              targetListInitialized := true } p0.1 p0.2
        have hpb : p0.1 < TestCode.GRID_SIZE ∧ p0.2 < TestCode.GRID_SIZE := by
          rw [hk]
          exact TestCode.buildTargetArray_bounds st.lastHitX st.lastHitY
            st.targetList hlast.1 hlast.2 hlist k
        refine ⟨p0, _, TestCode.arduinoPhase (TestCode.resolveAt
          { st with
            targetIndex := j,
            targetList := TestCode.buildTargetArray st.lastHitX st.lastHitY
              st.targetList,
            targetListInitialized := true } p0.1 p0.2).2, ?_, hres,
          hpb.1, hpb.2, hkuntried, ?_, ?_⟩
        · simp only [TestCode.arduinoAttack, hmode, hinitf, Bool.false_eq_true,
            if_false]
          rw [hscan]
        · rw [(TestCode.arduinoPhase_fields _).2, hgrid]
          exact TestCode.untriedCount_set_lt _ _ _ _ hpb.1 hpb.2 hv4 hvne hkuntried
        · intro _ hscannone
          rw [if_neg hinit, if_neg hinit] at hscannone
          rw [hscan] at hscannone
          simp at hscannone

/-- Witness for C7 at the demo state with oracle [(4,4)]. -/
theorem C7_witness :
    ((∀ q ∈ [((4 : Nat), (4 : Nat))],
        q.1 < TestCode.GRID_SIZE ∧ q.2 < TestCode.GRID_SIZE) ∧
      (∃ q ∈ [((4 : Nat), (4 : Nat))],
        TestCode.getCellState demoTC.arduinoAttackGrid q.1 q.2 = TestCode.CELL_EMPTY) ∧
      (∀ i, (demoTC.targetList i).1 < TestCode.GRID_SIZE ∧
        (demoTC.targetList i).2 < TestCode.GRID_SIZE) ∧
      demoTC.lastHitX < TestCode.GRID_SIZE ∧ demoTC.lastHitY < TestCode.GRID_SIZE) ∧
    (∃ p r st', TestCode.arduinoAttack demoTC [(4, 4)] = some (p, r, st') ∧
      (r = TestCode.AttackResult.hit ∨ r = TestCode.AttackResult.miss)) := by
  refine ⟨⟨by decide, by decide, by decide, by decide⟩, ?_⟩
  obtain ⟨p, r, st', heq, hres, _⟩ :=
    C7_arduinoAttack_one_resolution demoTC [(4, 4)] (by decide) (by decide)
      (by decide) (by decide)
  exact ⟨p, r, st', heq, hres⟩

/-- Player grid of the C6 counterexample trace: ship cells at (1,5) and
(0,5) on the otherwise empty 10×10 board. -/
def cexPG : TestCode.Buf :=
  TestCode.setCellState
    (TestCode.setCellState TestCode.zeroBuf 1 5 TestCode.CELL_SHIP)
    0 5 TestCode.CELL_SHIP

/-- Start state of the C6 counterexample trace: fresh AI in hunt mode. -/
def cexInit : TestCode.TCState :=
  { playerGrid := cexPG, arduinoGrid := TestCode.zeroBuf,
    playerAttackGrid := TestCode.zeroBuf, arduinoAttackGrid := TestCode.zeroBuf,
    cursorX := 0, cursorY := 0, playerShipHorizontal := true, shipId := 5,
    gameState := TestCode.GamePhase.arduinoTurn,
    arduinoAttackMode := TestCode.AttackMode.hunt,
    lastHitX := 0, lastHitY := 0, targetIndex := 0,
    targetList := fun _ => (0, 0), targetListInitialized := false }

/-- Chain one more AI turn onto a previous turn's outcome. -/
def cexStep (o : Option ((Nat × Nat) × TestCode.AttackResult × TestCode.TCState))
    (rng : List (Nat × Nat)) :
    Option ((Nat × Nat) × TestCode.AttackResult × TestCode.TCState) :=
  match o with
  | some (_, _, s) => TestCode.arduinoAttack s rng
  | none => none

/-- Turn 1: hunt samples (1,5) — a hit; the AI enters target mode. -/
def cex1 : Option ((Nat × Nat) × TestCode.AttackResult × TestCode.TCState) :=
  TestCode.arduinoAttack cexInit [(1, 5)]

/-- Turn 2: target around (1,5); slot 0 = (0,5) is untried — a hit. -/
def cex2 : Option ((Nat × Nat) × TestCode.AttackResult × TestCode.TCState) :=
  cexStep cex1 []

/-- Turn 3: rebuild around (0,5) overwrites only slots 0..2. -/
def cex3 : Option ((Nat × Nat) × TestCode.AttackResult × TestCode.TCState) :=
  cexStep cex2 []

/-- Turn 4: consumes (0,6). -/
def cex4 : Option ((Nat × Nat) × TestCode.AttackResult × TestCode.TCState) :=
  cexStep cex3 []

/-- Turn 5: consumes the stale slot 3. -/
def cex5 : Option ((Nat × Nat) × TestCode.AttackResult × TestCode.TCState) :=
  cexStep cex4 []

/-- C6 counterexample: after the hit at (0,5) of turn 2, the AI is in
target mode around (0,5) for turns 3-5 (no further hit occurs), yet turn
5 attacks (1,6) — a stale slot left over from the earlier build around
(1,5) — which is not one of the in-bounds orthogonal neighbors
{(1,5),(0,4),(0,6)} of (0,5).  So the queue consumed after the hit at
(0,5) does not contain exactly the in-bounds orthogonal neighbors of the
hit: the initialization block only overwrites the first `idx` slots of
the 4-entry array, and the scan reads all four. -/
theorem C6_counterexample :
    cex2.map (fun t => (t.1, t.2.1)) = some ((0, 5), TestCode.AttackResult.hit) ∧
    cex2.map (fun t => (t.2.2.arduinoAttackMode, t.2.2.lastHitX, t.2.2.lastHitY))
      = some (TestCode.AttackMode.target, 0, 5) ∧
    cex3.map (fun t => (t.1, t.2.1)) = some ((0, 4), TestCode.AttackResult.miss) ∧
    cex3.map (fun t => (t.2.2.arduinoAttackMode, t.2.2.lastHitX, t.2.2.lastHitY))
      = some (TestCode.AttackMode.target, 0, 5) ∧
    cex4.map (fun t => (t.1, t.2.1)) = some ((0, 6), TestCode.AttackResult.miss) ∧
    cex4.map (fun t => (t.2.2.arduinoAttackMode, t.2.2.lastHitX, t.2.2.lastHitY))
      = some (TestCode.AttackMode.target, 0, 5) ∧
    cex5.map (fun t => (t.1, t.2.1)) = some ((1, 6), TestCode.AttackResult.miss) ∧
    ¬ (((1 : Nat), (6 : Nat)) ∈ [((1 : Nat), (5 : Nat)), (0, 4), (0, 6)]) := by
  decide

/-- C6 (amended: restricted to hits at interior cells, where all four
orthogonal neighbors exist — as in the claim's own example — so that the
initialization block fills all four slots): on the first target-mode turn
after a hit at interior (hx,hy), the rebuilt queue is exactly the four
orthogonal neighbors in left, right, up, down order, and the turn attacks
the first untried one of them in that order. -/
theorem C6_target_queue_interior (st : TestCode.TCState) (rng : List (Nat × Nat))
    (hmode : st.arduinoAttackMode = TestCode.AttackMode.target)
    (hninit : st.targetListInitialized = false)
    (h1 : 0 < st.lastHitX) (h2 : st.lastHitX < TestCode.GRID_SIZE - 1)
    (h3 : 0 < st.lastHitY) (h4 : st.lastHitY < TestCode.GRID_SIZE - 1) :
    (TestCode.buildTargetArray st.lastHitX st.lastHitY st.targetList 0
        = (st.lastHitX - 1, st.lastHitY) ∧
      TestCode.buildTargetArray st.lastHitX st.lastHitY st.targetList 1
        = (st.lastHitX + 1, st.lastHitY) ∧
      TestCode.buildTargetArray st.lastHitX st.lastHitY st.targetList 2
        = (st.lastHitX, st.lastHitY - 1) ∧
      TestCode.buildTargetArray st.lastHitX st.lastHitY st.targetList 3
        = (st.lastHitX, st.lastHitY + 1)) ∧
    (∀ p, [(st.lastHitX - 1, st.lastHitY), (st.lastHitX + 1, st.lastHitY),
        (st.lastHitX, st.lastHitY - 1), (st.lastHitX, st.lastHitY + 1)].find?
        (fun q => TestCode.getCellState st.arduinoAttackGrid q.1 q.2
          == TestCode.CELL_EMPTY) = some p →
      ∃ r st', TestCode.arduinoAttack st rng = some (p, r, st')) := by
  obtain ⟨b0, b1, b2, b3⟩ :=
    TestCode.buildTargetArray_interior st.lastHitX st.lastHitY st.targetList
      h1 h2 h3 h4
  refine ⟨⟨b0, b1, b2, b3⟩, ?_⟩
  intro p hfind
  simp only [TestCode.arduinoAttack, hmode, hninit, Bool.false_eq_true, if_false]
  rw [TestCode.scanTargets_zero_eq]
  rw [b0, b1, b2, b3]
  simp only [List.find?] at hfind
  by_cases c0 : TestCode.getCellState st.arduinoAttackGrid
      (st.lastHitX - 1) st.lastHitY = TestCode.CELL_EMPTY
  · rw [if_pos c0]
    have hb0 : (TestCode.getCellState st.arduinoAttackGrid
        (st.lastHitX - 1) st.lastHitY == TestCode.CELL_EMPTY) = true := beq_iff_eq.mpr c0
    simp only [hb0, Option.some.injEq] at hfind
    rw [← hfind]
    exact ⟨_, _, rfl⟩
  · rw [if_neg c0]
    have hb0 : (TestCode.getCellState st.arduinoAttackGrid
        (st.lastHitX - 1) st.lastHitY == TestCode.CELL_EMPTY) = false :=
      beq_eq_false_iff_ne.mpr c0
    simp only [hb0] at hfind
    by_cases c1 : TestCode.getCellState st.arduinoAttackGrid
        (st.lastHitX + 1) st.lastHitY = TestCode.CELL_EMPTY
    · rw [if_pos c1]
      have hb1 : (TestCode.getCellState st.arduinoAttackGrid
          (st.lastHitX + 1) st.lastHitY == TestCode.CELL_EMPTY) = true := beq_iff_eq.mpr c1
      simp only [hb1, Option.some.injEq] at hfind
      rw [← hfind]
      exact ⟨_, _, rfl⟩
    · rw [if_neg c1]
      have hb1 : (TestCode.getCellState st.arduinoAttackGrid
          (st.lastHitX + 1) st.lastHitY == TestCode.CELL_EMPTY) = false :=
        beq_eq_false_iff_ne.mpr c1
      simp only [hb1] at hfind
      by_cases c2 : TestCode.getCellState st.arduinoAttackGrid
          st.lastHitX (st.lastHitY - 1) = TestCode.CELL_EMPTY
      · rw [if_pos c2]
        have hb2 : (TestCode.getCellState st.arduinoAttackGrid
            st.lastHitX (st.lastHitY - 1) == TestCode.CELL_EMPTY) = true :=
          beq_iff_eq.mpr c2
        simp only [hb2, Option.some.injEq] at hfind
        rw [← hfind]
        exact ⟨_, _, rfl⟩
      · rw [if_neg c2]
        have hb2 : (TestCode.getCellState st.arduinoAttackGrid
            st.lastHitX (st.lastHitY - 1) == TestCode.CELL_EMPTY) = false :=
          beq_eq_false_iff_ne.mpr c2
        simp only [hb2] at hfind
        by_cases c3 : TestCode.getCellState st.arduinoAttackGrid
            st.lastHitX (st.lastHitY + 1) = TestCode.CELL_EMPTY
        · rw [if_pos c3]
          have hb3 : (TestCode.getCellState st.arduinoAttackGrid
              st.lastHitX (st.lastHitY + 1) == TestCode.CELL_EMPTY) = true :=
            beq_iff_eq.mpr c3
          simp only [hb3, Option.some.injEq] at hfind
          rw [← hfind]
          exact ⟨_, _, rfl⟩
        · rw [if_neg c3]
          have hb3 : (TestCode.getCellState st.arduinoAttackGrid
              st.lastHitX (st.lastHitY + 1) == TestCode.CELL_EMPTY) = false :=
            beq_eq_false_iff_ne.mpr c3
          simp only [hb3] at hfind
          exact absurd hfind (by simp)

/-- The spec's own example state for C6: a 3-ship at (2,2)-(4,2), the AI
just hit (3,2). -/
def demoTargetState : TestCode.TCState :=
  { playerGrid := TestCode.setCellState
      (TestCode.setCellState
        (TestCode.setCellState TestCode.zeroBuf 2 2 TestCode.CELL_SHIP)
        4 2 TestCode.CELL_SHIP)
      3 2 TestCode.CELL_HIT,
    arduinoGrid := TestCode.zeroBuf,
    playerAttackGrid := TestCode.zeroBuf,
    arduinoAttackGrid := TestCode.setCellState TestCode.zeroBuf 3 2 TestCode.CELL_HIT,
    cursorX := 0, cursorY := 0, playerShipHorizontal := true, shipId := 5,
    gameState := TestCode.GamePhase.arduinoTurn,
    arduinoAttackMode := TestCode.AttackMode.target,
    lastHitX := 3, lastHitY := 2, targetIndex := 0,
    targetList := fun _ => (0, 0), targetListInitialized := false }

/-- Witness for C6 on the spec's example: after the hit at (3,2) the
queue is exactly (2,2),(4,2),(3,1),(3,3) in that order and the next turn
attacks (2,2). -/
theorem C6_witness :
    (demoTargetState.arduinoAttackMode = TestCode.AttackMode.target ∧
      demoTargetState.targetListInitialized = false ∧
      0 < demoTargetState.lastHitX ∧
      demoTargetState.lastHitX < TestCode.GRID_SIZE - 1 ∧
      0 < demoTargetState.lastHitY ∧
      demoTargetState.lastHitY < TestCode.GRID_SIZE - 1) ∧
    (TestCode.buildTargetArray demoTargetState.lastHitX demoTargetState.lastHitY
        demoTargetState.targetList 0 = (2, 2) ∧
      TestCode.buildTargetArray demoTargetState.lastHitX demoTargetState.lastHitY
        demoTargetState.targetList 1 = (4, 2) ∧
      TestCode.buildTargetArray demoTargetState.lastHitX demoTargetState.lastHitY
        demoTargetState.targetList 2 = (3, 1) ∧
      TestCode.buildTargetArray demoTargetState.lastHitX demoTargetState.lastHitY
        demoTargetState.targetList 3 = (3, 3)) ∧
    (∃ r st', TestCode.arduinoAttack demoTargetState [] = some ((2, 2), r, st')) := by
  have happ := C6_target_queue_interior demoTargetState [] rfl rfl
    (by decide) (by decide) (by decide) (by decide)
  refine ⟨⟨rfl, rfl, by decide, by decide, by decide, by decide⟩, ?_, ?_⟩
  · exact happ.1
  · exact happ.2 (2, 2) (by decide)

/-- Witness for C8 on the demo state: the player's attack at (2,3)
resolves and the phase follows the win check. -/
theorem C8_witness :
    (TestCode.getCellState demoTC.playerAttackGrid demoTC.cursorX demoTC.cursorY
      = TestCode.CELL_EMPTY) ∧
    (TestCode.playerAttack demoTC).2.gameState =
      (if TestCode.countRemainingShips (TestCode.playerAttack demoTC).2.arduinoGrid = 0
        then TestCode.GamePhase.gameOver else TestCode.GamePhase.arduinoTurn) :=
  ⟨by decide, C8_win_check_after_attack.1 demoTC (by decide)⟩

namespace TestCode

/-- A player-attack tick never enters the placement phase. -/
theorem playerAttack_gameState_ne_placing (st : TCState)
    (h : st.gameState ≠ GamePhase.placing) :
    (playerAttack st).2.gameState ≠ GamePhase.placing := by
  by_cases huntried : getCellState st.playerAttackGrid st.cursorX st.cursorY
      = CELL_EMPTY
  · by_cases hship : getCellState st.arduinoGrid st.cursorX st.cursorY = CELL_SHIP
    · simp only [playerAttack, if_pos huntried, if_pos hship]
      by_cases hwin : countRemainingShips
          (setCellState st.arduinoGrid st.cursorX st.cursorY CELL_HIT) = 0
      · rw [if_pos hwin]
        decide
      · rw [if_neg hwin]
        decide
    · simp only [playerAttack, if_pos huntried, if_neg hship]
      by_cases hwin : countRemainingShips
          (setCellState st.arduinoGrid st.cursorX st.cursorY CELL_MISS) = 0
      · rw [if_pos hwin]
        decide
      · rw [if_neg hwin]
        decide
  · simp only [playerAttack, if_neg huntried]
    exact h

/-- The phase after any completed AI attack is determined by the win
check: `GAME_OVER` or `PLAYER_TURN`. -/
theorem arduinoAttack_gameState (st : TCState) (rng : List (Nat × Nat))
    (p : Nat × Nat) (r : AttackResult) (st' : TCState)
    (heq : arduinoAttack st rng = some (p, r, st')) :
    st'.gameState = (if countRemainingShips st'.playerGrid = 0
      then GamePhase.gameOver else GamePhase.playerTurn) := by
  cases hmode : st.arduinoAttackMode
  · rw [arduinoAttack, hmode] at heq
    rw [Option.map_eq_some'] at heq
    obtain ⟨q, hq, hfq⟩ := heq
    simp only [Prod.mk.injEq] at hfq
    rw [← hfq.2.2]
    exact arduinoPhase_gameState _
  · simp only [arduinoAttack, hmode] at heq
    split at heq
    · simp only [Option.some.injEq, Prod.mk.injEq] at heq
      rw [← heq.2.2]
      exact arduinoPhase_gameState _
    · rw [Option.map_eq_some'] at heq
      obtain ⟨q, hq, hfq⟩ := heq
      simp only [Prod.mk.injEq] at hfq
      rw [← hfq.2.2]
      exact arduinoPhase_gameState _

end TestCode

/-- C9: the serial-monitor `resetGame` fully reinitializes the game
(grids cleared, Arduino ships re-placed, cursor, orientation, global
`shipId`, AI mode variables reset, phase `PLACING_SHIPS`), and in the
test_code main loop the placement phase is entered from any other phase
only by the full reset.  The part_001 variant, however, keeps `shipId` as
a function-local static that `resetGame` cannot touch, so after a
completed game a reset enters `PLACING_SHIPS` with the counter still at
`NUM_SHIPS` and the very next placement tick skips straight to
`PLAYER_TURN` with the player's grid still empty — placement is not
replayed, contradicting the claim (and the serial-monitor variant's own
fix comment, which moved `shipId` to global scope). -/
theorem C9_reset_reinitializes_sole_placing_entry :
    (∀ (st : Part1.P1State) (rng : List (Nat × Nat × Bool)) (st2 : Part1.P1State),
      Part1.resetGame st rng = some st2 →
      st2.staticShipId = st.staticShipId ∧
      st2.gameState = TestCode.GamePhase.placing ∧
      (st.staticShipId ≥ Part1.NUM_SHIPS →
        (Part1.playerPlaceShipsEntry st2).gameState = TestCode.GamePhase.playerTurn ∧
        ∀ x y, (Part1.playerPlaceShipsEntry st2).playerGrid x y = Part1.EMPTY)) ∧
    (∀ (st : SerialMonitor.SMState) (rng : List (Nat × Nat × Bool))
        (st2 : SerialMonitor.SMState),
      SerialMonitor.resetGame st rng = some st2 →
      st2.cursorX = 0 ∧ st2.cursorY = 0 ∧
      st2.playerShipHorizontal = true ∧ st2.shipId = 0 ∧
      st2.arduinoAttackMode = TestCode.AttackMode.hunt ∧
      st2.lastHitX = 0 ∧ st2.lastHitY = 0 ∧ st2.targetIndex = 0 ∧
      st2.targetListInitialized = false ∧
      st2.gameState = TestCode.GamePhase.placing ∧
      st2.playerGrid = SerialMonitor.emptyOwn ∧
      st2.playerAttackGrid = SerialMonitor.emptyAtk ∧
      st2.arduinoAttackGrid = SerialMonitor.emptyAtk ∧
      SerialMonitor.placeArduinoShips SerialMonitor.emptyOwn rng
        = some st2.arduinoGrid) ∧
    (∀ (st : TestCode.TCState) (inp : TestCode.LoopInput) (st2 : TestCode.TCState),
      TestCode.loopStep st inp = some st2 →
      st.gameState ≠ TestCode.GamePhase.placing →
      st2.gameState = TestCode.GamePhase.placing →
      TestCode.resetGame st inp.placeRng = some st2) := by
  refine ⟨?_, ?_, ?_⟩
  · intro st rng st2 h
    rw [Part1.resetGame] at h
    split at h
    · exact absurd h (by simp)
    · rw [Option.some.injEq] at h
      subst h
      refine ⟨rfl, rfl, fun hge => ⟨?_, fun x y => ?_⟩⟩
      · rw [Part1.playerPlaceShipsEntry, if_pos hge]
      · rw [Part1.playerPlaceShipsEntry, if_pos hge]
        rfl
  · intro st rng st2 h
    rw [SerialMonitor.resetGame] at h
    split at h
    · exact absurd h (by simp)
    · rename_i ag heq
      rw [Option.some.injEq] at h
      subst h
      exact ⟨rfl, rfl, rfl, rfl, rfl, rfl, rfl, rfl, rfl, rfl, rfl, rfl, rfl, heq⟩
  · intro st inp st2 hstep hpre hpost
    by_cases hlong : inp.blueLongPress = true
    · rw [TestCode.loopStep, if_pos hlong] at hstep
      exact hstep
    · have hlongf : inp.blueLongPress = false := by
        rwa [Bool.not_eq_true] at hlong
      rw [TestCode.loopStep] at hstep
      rw [hlongf] at hstep
      simp only [Bool.false_eq_true, if_false] at hstep
      by_cases hcond : inp.blueShortPress = true ∧
          (st.gameState = TestCode.GamePhase.waiting ∨
            st.gameState = TestCode.GamePhase.gameOver)
      · rw [if_pos hcond] at hstep
        exact hstep
      · rw [if_neg hcond] at hstep
        cases hph : st.gameState
        · rw [hph] at hstep
          rw [Option.some.injEq] at hstep
          subst hstep
          rw [hph] at hpost
          exact absurd hpost (by decide)
        · exact absurd hph hpre
        · rw [hph] at hstep
          rw [Option.some.injEq] at hstep
          subst hstep
          by_cases hred : inp.redPressed = true
          · rw [if_pos hred] at hpost
            exact absurd hpost
              (TestCode.playerAttack_gameState_ne_placing st
                (by rw [hph]; decide))
          · have hredf : inp.redPressed = false := by
              rwa [Bool.not_eq_true] at hred
            rw [hredf] at hpost
            simp only [Bool.false_eq_true, if_false] at hpost
            rw [hph] at hpost
            exact absurd hpost (by decide)
        · rw [hph] at hstep
          rw [Option.map_eq_some'] at hstep
          obtain ⟨q, hq, hfq⟩ := hstep
          have hgs := TestCode.arduinoAttack_gameState st inp.rng q.1 q.2.1 q.2.2 hq
          rw [hfq] at hgs
          rw [hgs] at hpost
          by_cases hwin : TestCode.countRemainingShips st2.playerGrid = 0
          · rw [if_pos hwin] at hpost
            exact absurd hpost (by decide)
          · rw [if_neg hwin] at hpost
            exact absurd hpost (by decide)
        · rw [hph] at hstep
          rw [Option.some.injEq] at hstep
          subst hstep
          rw [hph] at hpost
          exact absurd hpost (by decide)

/-- The part_001 post-game situation: static `shipId` stuck at
`NUM_SHIPS` (7) after a finished game. -/
def demoP1 : Part1.P1State :=
  { playerGrid := SerialMonitor.emptyOwn, arduinoGrid := SerialMonitor.emptyOwn,
    playerAttackGrid := SerialMonitor.emptyAtk,
    arduinoAttackGrid := SerialMonitor.emptyAtk,
    cursorX := 0, cursorY := 0, playerShipHorizontal := true,
    gameState := TestCode.GamePhase.gameOver, staticShipId := 7 }

/-- A placement oracle that lays the seven roster ships on rows 0-6. -/
def demoPlaceRng : List (Nat × Nat × Bool) :=
  [(0, 0, true), (0, 1, true), (0, 2, true), (0, 3, true), (0, 4, true),
    (0, 5, true), (0, 6, true)]

/-- Witness for C9 (and concrete evaluation at the part_001 failing
input): the reset succeeds, keeps the static counter at 7, enters
`PLACING_SHIPS`, and the next placement tick immediately jumps to
`PLAYER_TURN`. -/
theorem C9_witness :
    demoP1.staticShipId ≥ Part1.NUM_SHIPS ∧
    ∃ st2, Part1.resetGame demoP1 demoPlaceRng = some st2 ∧
      st2.staticShipId = 7 ∧
      st2.gameState = TestCode.GamePhase.placing ∧
      (Part1.playerPlaceShipsEntry st2).gameState = TestCode.GamePhase.playerTurn := by
  refine ⟨by decide, ?_⟩
  cases hres : Part1.resetGame demoP1 demoPlaceRng with
  | none =>
    have hsome : (Part1.resetGame demoP1 demoPlaceRng).isSome = true := by decide
    rw [hres] at hsome
    simp at hsome
  | some st2 =>
    obtain ⟨h1, h2, h3⟩ :=
      C9_reset_reinitializes_sole_placing_entry.1 demoP1 demoPlaceRng st2 hres
    exact ⟨st2, rfl, h1.trans rfl, h2, (h3 (by decide)).1⟩
